/-
  Verification of the PyFRC2G rule-normalization and graph-construction
  pipeline against its design specification.

  The Lean definitions below are a shallow embedding of the Python
  modules:
    modules/utils.py            (map_value, normalize_ports, alias labels)
    modules/main.py             (rule normalization, change detection)
    modules/graph_generator.py  (generate_graphs CSV parsing / node+edge build)
    modules/api_client.py       (alias fetch loops, rule fetch deduplication)

  Python dictionaries are modelled as association lists preserving
  insertion order (lookup returns the first match; update replaces in
  place; new keys are appended), matching CPython dict semantics.
  Python string values are Lean Strings; JSON null / absent keys are
  modelled explicitly where the code distinguishes them.
-/
import Mathlib

namespace PyFRC2G

/-! ### Kernel-computable models of the Python string operations

The Lean core `String` functions (`trim`, `toLower`, `splitOn`, ...)
recurse on byte positions and do not reduce inside the kernel, so the
Python string operations are modelled directly on the character list.
Case mapping is ASCII (the only case the vendor data exercises). -/

/-- Python `s.lower()` (ASCII). -/
def pyLower (s : String) : String := ⟨s.data.map Char.toLower⟩

/-- Python `s.upper()` (ASCII). -/
def pyUpper (s : String) : String := ⟨s.data.map Char.toUpper⟩

/-- Python `s.strip()`. -/
def pyStrip (s : String) : String :=
  ⟨((s.data.dropWhile Char.isWhitespace).reverse.dropWhile Char.isWhitespace).reverse⟩

/-- Python `s.replace(c, "")` (all four `replace` calls in the source
replace a single character with the empty string). -/
def removeChar (c : Char) (s : String) : String :=
  ⟨s.data.filter (fun a => a != c)⟩

/-- Python `s.split(c)` for a single-character separator. -/
def splitChar (c : Char) : List Char → List (List Char)
  | [] => [[]]
  | a :: rest =>
      if a = c then [] :: splitChar c rest
      else
        match splitChar c rest with
        | [] => [[a]]
        | h :: t => (a :: h) :: t

/-- Python `sep.join(parts)`. -/
def joinWith (sep : String) : List String → String
  | [] => ""
  | [x] => x
  | x :: rest => x ++ sep ++ joinWith sep rest

/-- Occurrence test for `sub` inside a character list. -/
def listContainsSub (sub : List Char) : List Char → Bool
  | [] => sub.isEmpty
  | a :: rest => sub.isPrefixOf (a :: rest) || listContainsSub sub rest


/-! ### Association-list model of Python dict -/

/-- First-match lookup in an insertion-ordered association list
(Python `d[k]` / `k in d`). -/
def alookup {α : Type} : List (String × α) → String → Option α
  | [], _ => none
  | (k, v) :: rest, key => if k = key then some v else alookup rest key

/-- Python `d[k] = v`: replace in place if the key exists, else append. -/
def aupsert {α : Type} : List (String × α) → String → α → List (String × α)
  | [], key, v => [(key, v)]
  | (k, w) :: rest, key, v =>
      if k = key then (k, v) :: rest else (k, w) :: aupsert rest key v

/-! ### Python values reaching `map_value` (utils.py) -/

/-- A raw field value as read from the vendor JSON: Python `None`
(also standing for an absent key, which `dict.get` turns into `None`),
a string, a boolean, or a list of strings. -/
inductive RVal : Type where
  | rNone : RVal
  | rStr : String → RVal
  | rBool : Bool → RVal
  | rList : List String → RVal
deriving DecidableEq

open RVal

/-- Python truthiness of an `RVal`. -/
def truthyR : RVal → Bool
  | rNone => false
  | rStr s => s ≠ ""
  | rBool b => b
  | rList l => l ≠ []

/-- Python `str(value)` after `map_value` has joined list values with
`", "` (utils.py line 69); booleans render as `"True"` / `"False"`. -/
def rvalToStr : RVal → String
  | rNone => "None"
  | rStr s => s
  | rBool b => if b then "True" else "False"
  | rList l => joinWith ", " l

/-- Stored alias details (utils.py `API_ALIAS_DETAILS` entries). -/
structure AliasInfo where
  name : String
  type : String
  content : String
  description : String
deriving DecidableEq

/-- The five module-level lookup tables of utils.py
(`API_INTERFACE_MAP`, `API_NET_MAP`, `API_ADDRESS_MAP`, `API_PORT_MAP`,
`API_ALIAS_DETAILS`), passed explicitly instead of as globals. -/
structure AliasMaps where
  interfaceMap : List (String × String)
  netMap : List (String × String)
  addressMap : List (String × String)
  portMap : List (String × String)
  aliasDetails : List (String × AliasInfo)
deriving DecidableEq

/-- Maps before any fetch populated them. -/
def emptyMaps : AliasMaps := ⟨[], [], [], [], []⟩

/-- The field kinds `map_value` distinguishes (utils.py lines 72-92);
`none` at the call site means Python `field=None`. -/
inductive FieldKind : Type where
  | source | interface | destinationPort | destination
deriving DecidableEq

/-- utils.py `map_value(value, field, any_value)`: `None` becomes the
`any_value` sentinel; list values are joined with `", "`; then the
field-specific tables are consulted and the raw value is returned on a
miss.  The final CSV cell is Python `str` of the result, which
`rvalToStr` already performs for the fall-through case. -/
def map_value (m : AliasMaps) (value : RVal) (field : Option FieldKind)
    (any_value : String) : String :=
  match value with
  | rNone => any_value
  | v =>
    let s := rvalToStr v
    match field with
    | some .source | some .interface =>
        match alookup m.interfaceMap (pyLower s) with
        | some lbl => lbl
        | none => s
    | some .destinationPort =>
        match alookup m.portMap s with
        | some lbl => lbl
        | none => s
    | some .destination =>
        match alookup m.interfaceMap (pyLower s) with
        | some lbl => lbl
        | none =>
          match alookup m.netMap (pyLower s) with
          | some lbl => lbl
          | none =>
            match alookup m.addressMap (pyLower s) with
            | some lbl => lbl
            | none => s
    | none => s

/-- utils.py `get_alias_details(value)`: lowercase+strip direct lookup,
then a space/comma-stripped variant, then each comma-separated part. -/
def get_alias_details (details : List (String × AliasInfo)) (value : String) :
    Option AliasInfo :=
  if value = "" then none
  else
    let val := pyStrip (pyLower value)
    match alookup details val with
    | some i => some i
    | none =>
      let valClean := removeChar ',' (removeChar ' ' val)
      match alookup details valClean with
      | some i => some i
      | none =>
        if (splitChar ',' val.data).length ≥ 2 then
          (splitChar ',' val.data).findSome? fun part =>
            alookup details (pyLower (pyStrip ⟨part⟩))
        else none

/-- utils.py `format_alias_label(value, default_label)`. -/
def format_alias_label (details : List (String × AliasInfo))
    (value default_label : String) : String :=
  if value = "" then (if default_label ≠ "" then default_label else value)
  else
    match get_alias_details details value with
    | some info =>
        let parts := [info.name]
          ++ (if info.type ≠ "" then ["[" ++ info.type ++ "]"] else [])
          ++ (if info.content ≠ "" then ["(" ++ info.content ++ ")"] else [])
          ++ (if info.description ≠ "" ∧ info.description ≠ info.name
              then ["- " ++ info.description] else [])
        joinWith " " parts
    | none => if default_label ≠ "" then default_label else value

/-- utils.py `normalize_ports`: falsy input yields the sentinel, else all
whitespace is removed (`re.sub(r'\s+', '', ...)`), falling back to the
sentinel if nothing remains. -/
def normalize_ports (port_field : String) (any_value : String) : String :=
  if port_field = "" then any_value
  else
    let t : String := ⟨port_field.data.filter (fun c => !c.isWhitespace)⟩
    if t = "" then any_value else t

/-! ### Rule normalization (modules/main.py lines 60-111) -/

/-- One canonical rule row: the nine CSV fields, in the fixed order
`SOURCE,GATEWAY,ACTION,PROTOCOL,PORT,DESTINATION,COMMENT,DISABLED,FLOATING`.
This is also the row shape `generate_graphs` reads back from the CSV. -/
structure CanonRow where
  SOURCE : String
  GATEWAY : String
  ACTION : String
  PROTOCOL : String
  PORT : String
  DESTINATION : String
  COMMENT : String
  DISABLED : String
  FLOATING : String
deriving DecidableEq

/-- A stable-identifier value used by the rule-fetch deduplication; the
vendor APIs send numbers (`tracker`) or strings (`uuid`) and Python keeps
them apart, with `0` and `""` falsy. -/
inductive IdVal : Type where
  | jStr : String → IdVal
  | jInt : Int → IdVal
deriving DecidableEq

/-- Python truthiness of an `IdVal`. -/
def truthyId : IdVal → Bool
  | .jStr s => s ≠ ""
  | .jInt n => n ≠ 0

/-- A raw pfSense rule record (vendor A).  `tracker`/`id`/`sequence`/
`interface` feed the deduplication identifier; the remaining fields feed
normalization.  `Option` = the JSON key is absent (null-valued
`sequence`/`interface` keys are likewise modelled as absent). -/
structure PfEntry where
  tracker : Option IdVal
  id : Option IdVal
  sequence : Option String
  interface : Option String
  source : RVal
  type : RVal
  protocol : RVal
  destination_port : RVal
  destination : RVal
  descr : RVal
  disabled : RVal
  floating : RVal
deriving DecidableEq

/-- A pfSense entry with every field absent, for building test inputs. -/
def pfEntryNone : PfEntry :=
  ⟨none, none, none, none, rNone, rNone, rNone, rNone, rNone, rNone, rNone, rNone⟩

/-- `entry.get("interface")` viewed as the `RVal` handed to `map_value`. -/
def strToR : Option String → RVal
  | none => rNone
  | some s => rStr s

/-- main.py lines 61-71: one pfSense raw rule to one canonical row.
`gateway_name` is `config.gateway_name` and `any_value` is
`config.any_value`. -/
def normalizePfRow (m : AliasMaps) (gateway_name any_value : String)
    (e : PfEntry) : CanonRow :=
  { SOURCE := map_value m e.source (some .source) any_value
    GATEWAY := gateway_name ++ "/" ++
      map_value m (strToR e.interface) (some .interface) any_value
    ACTION := map_value m e.type none any_value
    PROTOCOL := map_value m e.protocol none any_value
    PORT := map_value m e.destination_port (some .destinationPort) any_value
    DESTINATION := map_value m e.destination (some .destination) any_value
    COMMENT := map_value m e.descr none any_value
    DISABLED := map_value m e.disabled none any_value
    FLOATING := map_value m e.floating none any_value }

/-- A raw OPNSense rule record (vendor B).  The nested
`source.network|address|any` and `destination.network|address|any|port`
lookups of main.py are flattened into one field each (`rNone` = the
nested key is absent or the containing dict is missing). -/
structure OpnEntry where
  uuid : Option IdVal
  sequence : Option String
  interface : Option String
  source_network : RVal
  source_address : RVal
  source_net : RVal
  source_any : RVal
  destination_network : RVal
  destination_address : RVal
  destination_any : RVal
  destination_net : RVal
  destPort : RVal
  destination_port : RVal
  action : RVal
  protocol : RVal
  description : RVal
deriving DecidableEq

/-- An OPNSense entry with every field absent, for building test inputs. -/
def opnEntryNone : OpnEntry :=
  ⟨none, none, none, rNone, rNone, rNone, rNone, rNone, rNone, rNone, rNone,
   rNone, rNone, rNone, rNone, rNone⟩

/-- Python `a or b` on raw values: `a` if truthy, else `b`. -/
def pyOr (a b : RVal) : RVal := if truthyR a then a else b

/-- main.py lines 88-111: one OPNSense raw rule to one canonical row.
A falsy `interface` makes the rule floating: the gateway suffix becomes
`Floating-rules`, `FLOATING` is `"True"`, and `DISABLED` is hard-coded
`"False"` (the search endpoint's disabled state is never read). -/
def normalizeOpnRow (m : AliasMaps) (gateway_name any_value : String)
    (e : OpnEntry) : CanonRow :=
  let source_val := pyOr e.source_network (pyOr e.source_address
      (pyOr e.source_net e.source_any))
  let destination_val := pyOr e.destination_network (pyOr e.destination_address
      (pyOr e.destination_any e.destination_net))
  let port_dest_val := pyOr e.destPort e.destination_port
  let entry_interface := strToR e.interface
  { SOURCE := map_value m source_val (some .source) any_value
    GATEWAY :=
      if truthyR entry_interface then
        gateway_name ++ "/" ++
          map_value m entry_interface (some .interface) any_value
      else gateway_name ++ "/Floating-rules"
    ACTION := map_value m e.action none any_value
    PROTOCOL := map_value m e.protocol none any_value
    PORT := map_value m port_dest_val (some .destinationPort) any_value
    DESTINATION := map_value m destination_val (some .destination) any_value
    COMMENT := map_value m e.description none any_value
    DISABLED := "False"
    FLOATING := if truthyR entry_interface then "False" else "True" }

/-! ### Graph construction (modules/graph_generator.py `generate_graphs`) -/

/-- config.py constants used by the graph builder. -/
def FLOATING_RULES_LABELS : List String :=
  ["Floating-rules", "Regles-flottantes", "RÃ¨gles flottantes"]

def UNKNOWN_LABEL : String := "<unknown>"

def DISABLED_LABEL : String := "Rule disabled"

def ANY_VALUE : String := "Any"

/-- Python `sub in s` (substring containment), for a non-empty `sub`. -/
def strContains (s sub : String) : Bool := listContainsSub sub.data s.data

/-- `any(label in gateway for label in FLOATING_RULES_LABELS)`
(graph_generator.py line 146): whether a cluster is a floating-rules
cluster. -/
def isFloatOf (gateway : String) : Bool :=
  FLOATING_RULES_LABELS.any (fun lbl => strContains gateway lbl)

/-- Python `s.replace('<', '').replace('>', '')`. -/
def stripAngles (s : String) : String := removeChar '>' (removeChar '<' s)

/-- `gateway.split("/", 1)[1]` when `"/" in gateway`, else `gateway`
(graph_generator.py lines 31 and 95). -/
def afterFirstSlash (s : String) : String :=
  if s.data.contains '/' then ⟨(s.data.dropWhile (fun a => a != '/')).tail⟩ else s

/-- One graph node: the Python triple `(f"node{next_id}", color, label)`;
the numeric id is kept as the `Nat` fed to the f-string. -/
structure Node where
  id : Nat
  color : Option String
  label : String
deriving DecidableEq

/-- One per-(gateway, source) sub-cluster:
`{"nodes": OrderedDict(), "edges": set()}`.  The edge set is modelled as
a duplicate-free insertion list (membership and size agree with the
Python set). -/
structure Cluster where
  nodes : List (String × Node)
  edges : List (Nat × Nat)
deriving DecidableEq

def emptyCluster : Cluster := ⟨[], []⟩

/-- The builder state: `flows_by_gateway` plus the shared `next_id`
counter (a `nonlocal` captured by `get_node`, so global across all
clusters of one `generate_graphs` call). -/
structure GState where
  flows : List (String × List (String × Cluster))
  nextId : Nat
deriving DecidableEq

def emptyGState : GState := ⟨[], 0⟩

/-- The key `get_node` actually uses:
`f"{key}__{next_id}" if force_unique else key`. -/
def actualKey (key : String) (nextId : Nat) (force_unique : Bool) : String :=
  if force_unique then key ++ "__" ++ Nat.repr nextId else key

/-- graph_generator.py `get_node` (lines 68-75): factorized node
creation; with `force_unique` the key gets a `__{next_id}` suffix.
Returns (returned node id, updated nodes, updated next_id). -/
def get_node (nodes : List (String × Node)) (nextId : Nat) (key : String)
    (label : Option String) (color : Option String) (force_unique : Bool) :
    Nat × List (String × Node) × Nat :=
  match alookup nodes (actualKey key nextId force_unique) with
  | some n => (n.id, nodes, nextId)
  | none =>
      (nextId,
       nodes ++ [(actualKey key nextId force_unique, ⟨nextId, color, label.getD key⟩)],
       nextId + 1)

/-- graph_generator.py `get_action_color`. -/
def get_action_color (action : String) : Option String :=
  if action = "PASS" then some "#a3f7a3"
  else if action = "BLOCK" ∨ action = "REJECT" then some "#f7a3a3"
  else none

/-- graph_generator.py `get_disabled_color`. -/
def get_disabled_color (disabled : String) : Option String :=
  if disabled = "True" then some "#ffcc00" else none

/-- Everything `generate_graphs` derives from one CSV row before touching
the graph state (lines 89-127): cluster keys, node keys/labels, colors,
the floating-cluster test, and whether the `interface_filter` skips the
row. -/
structure RowLabels where
  gatewayKey : String
  sourceKey : String
  skip : Bool
  srcLabel : String
  gwLabel : String
  actLabel : String
  protoKey : String
  protoLabel : String
  portKey : String
  portLabel : String
  destLabel : String
  actColor : Option String
  destColor : Option String
  isFloat : Bool
deriving DecidableEq

/-- The label/key computation of `generate_graphs` for one row
(graph_generator.py lines 89-127 and 141-146). -/
def computeRowLabels (details : List (String × AliasInfo))
    (interface_filter : Option String) (row : CanonRow) : RowLabels :=
  let floating := pyStrip row.FLOATING
  let source := pyStrip row.SOURCE
  let gateway :=
    if floating = "True" ∨ floating = "1" then "Floating-rules"
    else pyStrip row.GATEWAY
  let skip :=
    match interface_filter with
    | none => false
    | some f => afterFirstSlash gateway ≠ f
  let action := pyUpper (pyStrip row.ACTION)
  let protocol := if pyStrip row.PROTOCOL = "" then ANY_VALUE else pyStrip row.PROTOCOL
  let ports := normalize_ports row.PORT ANY_VALUE
  let destination := pyStrip row.DESTINATION
  let comment := pyStrip row.COMMENT
  let disabled := pyStrip row.DISABLED
  let source_clean := if source ≠ "" then stripAngles source else UNKNOWN_LABEL
  let gateway_clean := if gateway ≠ "" then stripAngles gateway else UNKNOWN_LABEL
  let action_clean := if action ≠ "" then stripAngles action else UNKNOWN_LABEL
  let destination_clean :=
    if destination ≠ "" then stripAngles destination else UNKNOWN_LABEL
  let comment_clean := if comment ≠ "" then stripAngles comment else ""
  let source_formatted := format_alias_label details source source_clean
  let destination_formatted :=
    format_alias_label details destination destination_clean
  let port_formatted := format_alias_label details ports ports
  let source_label :=
    if source_formatted ≠ "" then "SOURCE | " ++ source_formatted
    else "SOURCE | " ++ UNKNOWN_LABEL
  let gateway_label :=
    if gateway_clean ≠ "" then "GATEWAY | " ++ gateway_clean
    else "GATEWAY | " ++ UNKNOWN_LABEL
  let action_label :=
    if action_clean ≠ "" then "ACTION | " ++ action_clean
    else "ACTION | " ++ UNKNOWN_LABEL
  let proto_label := "PROTOCOL | " ++ protocol
  let port_label := "PORT | " ++ port_formatted
  let destination_label :=
    if disabled = "True" then
      if comment_clean ≠ "" then
        destination_formatted ++ " | " ++ comment_clean ++ " | " ++ DISABLED_LABEL
      else "VLAN | " ++ destination_formatted ++ " | " ++ DISABLED_LABEL
    else
      if comment_clean ≠ "" then destination_formatted ++ " | " ++ comment_clean
      else "VLAN | " ++ destination_formatted
  let proto_key := protocol ++ "|" ++ action
  let port_key := ports ++ "|" ++ proto_key
  { gatewayKey := gateway
    sourceKey := source
    skip := skip
    srcLabel := source_label
    gwLabel := gateway_label
    actLabel := action_label
    protoKey := proto_key
    protoLabel := proto_label
    portKey := port_key
    portLabel := port_label
    destLabel := destination_label
    actColor := get_action_color action
    destColor := get_disabled_color disabled
    isFloat := isFloatOf gateway }

/-- The six node ids a processed row reports, plus whether the
destination `get_node` call actually allocated a fresh node (`next_id`
was bumped by that call). -/
structure RowIds where
  src : Nat
  gw : Nat
  act : Nat
  proto : Nat
  port : Nat
  dest : Nat
  destFresh : Bool
deriving DecidableEq

/-- Add one directed edge to the edge set (`set.update` member-wise). -/
def insertEdge (edges : List (Nat × Nat)) (e : Nat × Nat) : List (Nat × Nat) :=
  if e ∈ edges then edges else edges ++ [e]

/-- Stage 1 of the per-row node construction: the `source` node call. -/
def cs1 (c : Cluster) (nextId : Nat) (L : RowLabels) : Nat × List (String × Node) × Nat :=
  get_node c.nodes nextId L.srcLabel none none false

/-- Stage 2: the `gateway` node call. -/
def cs2 (c : Cluster) (nextId : Nat) (L : RowLabels) : Nat × List (String × Node) × Nat :=
  get_node (cs1 c nextId L).2.1 (cs1 c nextId L).2.2 L.gwLabel none none false

/-- Stage 3: the `action` node call (with the action color). -/
def cs3 (c : Cluster) (nextId : Nat) (L : RowLabels) : Nat × List (String × Node) × Nat :=
  get_node (cs2 c nextId L).2.1 (cs2 c nextId L).2.2 L.actLabel none L.actColor false

/-- Stage 4: the `protocol` node call, keyed by `f"{protocol}|{action}"`. -/
def cs4 (c : Cluster) (nextId : Nat) (L : RowLabels) : Nat × List (String × Node) × Nat :=
  get_node (cs3 c nextId L).2.1 (cs3 c nextId L).2.2 L.protoKey (some L.protoLabel) none false

/-- Stage 5: the `port` node call, keyed by `f"{ports}|{proto_key}"`. -/
def cs5 (c : Cluster) (nextId : Nat) (L : RowLabels) : Nat × List (String × Node) × Nat :=
  get_node (cs4 c nextId L).2.1 (cs4 c nextId L).2.2 L.portKey (some L.portLabel) none false

/-- Stage 6: the `destination` node call, force-unique outside
floating-rules clusters, colored when the rule is disabled. -/
def cs6 (c : Cluster) (nextId : Nat) (L : RowLabels) : Nat × List (String × Node) × Nat :=
  get_node (cs5 c nextId L).2.1 (cs5 c nextId L).2.2 L.destLabel none L.destColor (!L.isFloat)

/-- The node/edge construction for one row against its sub-cluster
(graph_generator.py lines 137-154): the six sequential `get_node` calls
`cs1`-`cs6` threading the shared counter, then the five edges of the
layered chain source→gateway→action→protocol→port→destination. -/
def clusterStep (c : Cluster) (nextId : Nat) (L : RowLabels) :
    Cluster × Nat × RowIds :=
  let i1 := (cs1 c nextId L).1
  let i2 := (cs2 c nextId L).1
  let i3 := (cs3 c nextId L).1
  let i4 := (cs4 c nextId L).1
  let i5 := (cs5 c nextId L).1
  let i6 := (cs6 c nextId L).1
  let edges := [(i1, i2), (i2, i3), (i3, i4), (i4, i5), (i5, i6)]
  (⟨(cs6 c nextId L).2.1, edges.foldl insertEdge c.edges⟩, (cs6 c nextId L).2.2,
   ⟨i1, i2, i3, i4, i5, i6, decide ((cs5 c nextId L).2.2 < (cs6 c nextId L).2.2)⟩)

/-- Process one CSV row (graph_generator.py lines 88-154): compute
labels, apply the interface filter, locate/create the
(gateway, source) sub-cluster, and run `clusterStep` on it.  Returns
the updated state and, when the row was not filtered out, the node ids
it touched. -/
def processRowCore (details : List (String × AliasInfo))
    (interface_filter : Option String) (st : GState) (row : CanonRow) :
    GState × Option RowIds :=
  let L := computeRowLabels details interface_filter row
  if L.skip then (st, none)
  else
    let srcs := (alookup st.flows L.gatewayKey).getD []
    let c := (alookup srcs L.sourceKey).getD emptyCluster
    let r := clusterStep c st.nextId L
    let srcs' := aupsert srcs L.sourceKey r.1
    (⟨aupsert st.flows L.gatewayKey srcs', r.2.1⟩, some r.2.2)

/-- `processRowCore` keeping only the state. -/
def processRow (details : List (String × AliasInfo))
    (interface_filter : Option String) (st : GState) (row : CanonRow) : GState :=
  (processRowCore details interface_filter st row).1

/-- The full CSV parse of `generate_graphs` (lines 86-154); the Graphviz
rendering and PDF assembly that follow are external collaborators and
are not modelled. -/
def generate_graphs (details : List (String × AliasInfo))
    (interface_filter : Option String) (rows : List CanonRow) : GState :=
  rows.foldl (processRow details interface_filter) emptyGState

/-- The sub-cluster stored for a (gateway, source) pair (empty when the
pair was never touched, matching the lazy creation in the code). -/
def clusterOf (st : GState) (g s : String) : Cluster :=
  (alookup ((alookup st.flows g).getD []) s).getD emptyCluster

/-- Well-formedness of one sub-cluster's node map relative to the shared
counter: keys are distinct (the map is a dict), node ids are distinct,
and every allocated id is below `next_id`. -/
def nodesOk (nid : Nat) (ns : List (String × Node)) : Prop :=
  (ns.map Prod.fst).Nodup ∧ (ns.map fun p => p.2.id).Nodup ∧ ∀ p ∈ ns, p.2.id < nid

instance (nid : Nat) (ns : List (String × Node)) : Decidable (nodesOk nid ns) := by
  unfold nodesOk; infer_instance

/-! ### State-level invariants of the row loop -/

/-- Global well-formedness of the builder state: every sub-cluster's node
arena is well-formed relative to the shared counter. -/
def GInv (st : GState) : Prop :=
  ∀ g s : String, nodesOk st.nextId (clusterOf st g s).nodes

/-- The normalized protocol of a row as `generate_graphs` computes it
(line 100): trimmed, falling back to the `Any` sentinel. -/
def rowProtocol (row : CanonRow) : String :=
  if pyStrip row.PROTOCOL = "" then ANY_VALUE else pyStrip row.PROTOCOL

/-- The normalized action of a row (line 99): trimmed and uppercased. -/
def rowAction (row : CanonRow) : String := pyUpper (pyStrip row.ACTION)

/-- The normalized port field of a row (line 101). -/
def rowPorts (row : CanonRow) : String := normalize_ports row.PORT ANY_VALUE

/-- First row of the specified end-to-end scenario:
`(src=LAN, gw=GW1/wan, action=PASS, proto=TCP, port=443, dest=WEB)`. -/
def c2rowA : CanonRow :=
  ⟨"LAN", "GW1/wan", "PASS", "TCP", "443", "WEB", "", "False", "False"⟩

/-- Second row of the scenario, identical except `port=8443`. -/
def c2rowB : CanonRow :=
  ⟨"LAN", "GW1/wan", "PASS", "TCP", "8443", "WEB", "", "False", "False"⟩

/-- A row whose source label `SOURCE | LAN__6` later collides with a
force-unique destination key. -/
def c3row0 : CanonRow :=
  ⟨"LAN__6", "GW1/wan", "PASS", "TCP", "443", "D0", "", "False", "False"⟩

/-- A row whose destination label is `SOURCE | LAN` (destination `SOURCE`
with comment `LAN`), in the same non-floating cluster as `c3row0`. -/
def c3row1 : CanonRow :=
  ⟨"LAN__6", "GW1/wan", "PASS", "TCP", "443", "SOURCE", "LAN", "False", "False"⟩

/-- A floating rule row (`FLOATING="True"`), used to exercise the
floating-cluster destination sharing. -/
def c3wrow : CanonRow :=
  ⟨"LAN", "GW1/wan", "PASS", "TCP", "443", "WEB", "", "False", "True"⟩

/-- Same-protocol same-action rows with ports 443 / 8443. -/
def c4wrow1 : CanonRow :=
  ⟨"LAN", "GW1/wan", "PASS", "TCP", "443", "WEB", "", "False", "False"⟩

def c4wrow2 : CanonRow :=
  ⟨"LAN", "GW1/wan", "PASS", "TCP", "8443", "WEB", "", "False", "False"⟩

/-! ### Rule-fetch deduplication (api_client.py `_fetch_*_rules`) -/

/-- Python `a or b` over an optional identifier field:
`entry.get(k) or fallback`. -/
def jOr (o : Option IdVal) (fallback : IdVal) : IdVal :=
  match o with
  | none => fallback
  | some v => if truthyId v then v else fallback

/-- The vendor-A stable rule identifier (api_client.py line 447):
`entry.get("tracker") or entry.get("id") or
f"{entry.get('sequence', '')}{entry.get('interface', '')}"`. -/
def pfRuleId (e : PfEntry) : IdVal :=
  jOr e.tracker (jOr e.id (.jStr (e.sequence.getD "" ++ e.interface.getD "")))

/-- The vendor-B stable rule identifier (api_client.py line 561):
`entry.get("uuid") or f"{...sequence...}{...interface...}"`. -/
def opnRuleId (e : OpnEntry) : IdVal :=
  jOr e.uuid (.jStr (e.sequence.getD "" ++ e.interface.getD ""))

/-- The dedup loop body shared by both fetchers:
`if rule_id and rule_id not in seen_rule_ids: add` — entries with a
falsy identifier are dropped, first occurrence of an id wins. -/
def dedupByGo {α : Type} (f : α → IdVal) (seen : List IdVal) : List α → List α
  | [] => []
  | e :: rest =>
      if truthyId (f e) ∧ f e ∉ seen then e :: dedupByGo f (f e :: seen) rest
      else dedupByGo f seen rest

/-- The whole dedup pass over the concatenated fetch results (the code
runs one `seen_rule_ids` set across the global fetch and every
per-interface fetch, processed in order). -/
def dedupBy {α : Type} (f : α → IdVal) (l : List α) : List α := dedupByGo f [] l

/-- Vendor A's client-side per-interface post-filter (api_client.py
line 483): `e.get("interface", "").lower() == interface.lower()`. -/
def pfInterfaceFilter (iface : String) (entries : List PfEntry) : List PfEntry :=
  entries.filter (fun e => pyLower (e.interface.getD "") == pyLower iface)

/-- `_fetch_pfsense_rules` (api_client.py lines 416-509) restricted to
its data transformation: the rows of the global fetch followed by the
client-side-filtered rows of each per-interface fetch, deduplicated by
`pfRuleId` with one shared seen-set. -/
def fetch_pfsense_rules (globalRows : List PfEntry)
    (perInterface : List (String × List PfEntry)) : List PfEntry :=
  dedupBy pfRuleId
    (globalRows ++ perInterface.flatMap (fun p => pfInterfaceFilter p.1 p.2))

/-- `_fetch_opnsense_rules` (api_client.py lines 529-616): as vendor A
but the interface filtering happens server side, so the per-interface
responses are concatenated unfiltered. -/
def fetch_opnsense_rules (globalRows : List OpnEntry)
    (perInterface : List (String × List OpnEntry)) : List OpnEntry :=
  dedupBy opnRuleId (globalRows ++ perInterface.flatMap Prod.snd)

/-- Two vendor-A rules sharing the tracker id `5`. -/
def c5e1 : PfEntry := { pfEntryNone with tracker := some (.jInt 5), descr := rStr "first" }

def c5e2 : PfEntry := { pfEntryNone with tracker := some (.jInt 5), descr := rStr "second" }

/-- A vendor-A rule with a usable tracker, and one with a fully falsy
identifier. -/
def c10good : PfEntry := { pfEntryNone with tracker := some (.jInt 7) }

def c10opngood : OpnEntry := { opnEntryNone with uuid := some (.jStr "u-1") }

/-- Lookup tables holding the value `web` in both the interface table
and the network/host alias table. -/
def c6maps : AliasMaps :=
  ⟨[("web", "IFACE-LABEL")], [("web", "NET-LABEL")], [], [], []⟩

/-- A vendor-A rule whose `descr` is present but empty. -/
def c1entry : PfEntry := { pfEntryNone with descr := rStr "" }

/-- A floating vendor-A rule bound to interface `wan`. -/
def c8entry : PfEntry :=
  { pfEntryNone with interface := some "wan", floating := rStr "True" }

/-- An OPNSense rule with an interface, and the same rule without one. -/
def c8opn : OpnEntry := { opnEntryNone with interface := some "wan" }

/-! ### Alias fetch (api_client.py `_fetch_pfsense_aliases` lines
161-191 and `_fetch_opnsense_aliases` lines 270-331; the interface
fetches that follow populate `interface_map` and are separate). -/

/-- One raw pfSense alias record: `name`/`type`/`descr` via
`alias.get(..., "")`, `address` in its raw JSON shape. -/
structure PfAlias where
  name : String
  type : String
  address : RVal
  descr : String
deriving DecidableEq

/-- api_client.py lines 167-172: the address field as a list — a
non-empty string becomes a singleton, a list stays, anything else is
coerced to `[]`. -/
def pfAddressList : RVal → List String
  | rStr s => if s = "" then [] else [s]
  | rList l => l
  | _ => []

/-- The per-alias body of `_fetch_pfsense_aliases` (lines 161-190):
details are stored for EVERY alias; `host`/`network` populate both the
net and address maps, `port` populates the port map, and any other kind
falls into the `else` branch which also writes the net map. -/
def fetchPfAliasStep (m : AliasMaps) (a : PfAlias) : AliasMaps :=
  let name := pyLower a.name
  let address_str := joinWith ", " ((pfAddressList a.address).filter (fun x => x != ""))
  let description := if a.descr ≠ "" then a.descr else a.name
  let details1 := aupsert m.aliasDetails name ⟨a.name, a.type, address_str, description⟩
  let m1 := { m with aliasDetails := details1 }
  if a.type = "host" ∨ a.type = "network" then
    { m1 with netMap := aupsert m1.netMap name description,
              addressMap := aupsert m1.addressMap name description }
  else if a.type = "port" then
    { m1 with portMap :=
        aupsert m1.portMap name (if address_str ≠ "" then address_str else description) }
  else
    { m1 with netMap := aupsert m1.netMap name description }

/-- The alias loop of `_fetch_pfsense_aliases`. -/
def fetch_pfsense_aliases (aliases : List PfAlias) (m : AliasMaps) : AliasMaps :=
  aliases.foldl fetchPfAliasStep m

/-- One `content` map entry of an OPNSense alias:
`{selected: 0|1, value: ...}`. -/
structure OpnContent where
  selected : Nat
  value : Option String
deriving DecidableEq

/-- One raw OPNSense alias record: `enabled` (string flag, default
`"0"`), `name`, `description`, the `type` map `{kind: {selected}}` and
the `content` map. -/
structure OpnAlias where
  enabled : String
  name : String
  description : String
  typeInfo : List (String × Nat)
  content : List (String × OpnContent)
deriving DecidableEq

/-- api_client.py lines 292-296: the first type key with `selected == 1`. -/
def opnSelectedType (a : OpnAlias) : Option String :=
  (a.typeInfo.find? (fun p => p.2 == 1)).map Prod.fst

/-- api_client.py lines 305-311: the truthy values of the selected
content items (`content_item.get("value", content_key)`). -/
def opnContentValues (a : OpnAlias) : List String :=
  (a.content.filter (fun p => p.2.selected == 1)).filterMap
    (fun p => if p.2.value.getD p.1 = "" then none else some (p.2.value.getD p.1))

/-- The per-alias body of `_fetch_opnsense_aliases` (lines 270-331):
skip unless `enabled == "1"`, the name is non-empty, and the selected
kind is `host`/`network`/`port`; then store details and populate the
kind's table(s). -/
def fetchOpnAliasStep (m : AliasMaps) (a : OpnAlias) : AliasMaps :=
  if a.enabled ≠ "1" then m
  else if a.name = "" then m
  else
    let name := pyLower a.name
    let description := if a.description ≠ "" then a.description else a.name
    match opnSelectedType a with
    | none => m
    | some t =>
      if t = "host" ∨ t = "network" ∨ t = "port" then
        let content_str := joinWith ", " (opnContentValues a)
        let details1 := aupsert m.aliasDetails name ⟨a.name, t, content_str, description⟩
        let m1 := { m with aliasDetails := details1 }
        if t = "host" ∨ t = "network" then
          { m1 with netMap := aupsert m1.netMap name description,
                    addressMap := aupsert m1.addressMap name description }
        else
          { m1 with portMap :=
              aupsert m1.portMap name (if content_str ≠ "" then content_str else description) }
      else m

/-- The alias loop of `_fetch_opnsense_aliases`. -/
def fetch_opnsense_aliases (aliases : List OpnAlias) (m : AliasMaps) : AliasMaps :=
  aliases.foldl fetchOpnAliasStep m

/-- A pfSense alias of an unsupported kind. -/
def c7alias : PfAlias := ⟨"X", "urltable", rNone, "d"⟩

/-- An enabled OPNSense host alias. -/
def c7opnalias : OpnAlias :=
  ⟨"1", "Web", "web servers", [("host", 1)], [("10.0.0.1", ⟨1, none⟩)]⟩

/-! ### Change detection (modules/main.py lines 118-131) -/

/-- `f.readline().strip()` on the fingerprint file: the first line of the
content, stripped. -/
def firstLineStrip (s : String) : String :=
  pyStrip ⟨s.data.takeWhile (fun c => c != '\n')⟩

/-- The previously stored fingerprint: `""` when `md5sum.txt` does not
exist, else its first line stripped. -/
def readStoredFingerprint (st : Option String) : String :=
  match st with
  | none => ""
  | some content => firstLineStrip content

/-- main.py lines 118-131 as a state transition on the fingerprint file:
compare the hash of the current CSV content against the stored
fingerprint; on a difference, regenerate and persist `f"{actual_md5}\n"`,
otherwise leave the file untouched and skip regeneration.
`calculate_md5` lives behind `hashlib` (an external collaborator), so
the hash is a parameter; utils.py guarantees it returns a 32-character
hex digest, in particular a newline-free, whitespace-free, non-empty
string. -/
def runChangeDetection (hash : String → String) (csv : String)
    (st : Option String) : Bool × Option String :=
  let prev := readStoredFingerprint st
  let actual := hash csv
  if prev ≠ actual then (true, some (actual ++ "\n")) else (false, st)

/-! ## Supporting lemmas -/

theorem alookup_append_some {α : Type} {l : List (String × α)} {k : String} {v : α}
    (m : List (String × α)) (h : alookup l k = some v) :
    alookup (l ++ m) k = some v := by
  induction l with
  | nil => simp [alookup] at h
  | cons p rest ih =>
      simp only [alookup, List.cons_append] at h ⊢
      split at h
      · simp_all
      · simp only [*, if_false]
        exact ih h

theorem alookup_append_none {α : Type} {l : List (String × α)} {k : String}
    (m : List (String × α)) (h : alookup l k = none) :
    alookup (l ++ m) k = alookup m k := by
  induction l with
  | nil => simp
  | cons p rest ih =>
      simp only [alookup, List.cons_append] at h ⊢
      split at h
      · exact absurd h (by simp)
      · simp only [*, if_false]
        exact ih h

theorem alookup_mem {α : Type} {l : List (String × α)} {k : String} {v : α}
    (h : alookup l k = some v) : (k, v) ∈ l := by
  induction l with
  | nil => simp [alookup] at h
  | cons p rest ih =>
      obtain ⟨k0, v0⟩ := p
      simp only [alookup] at h
      split at h
      · cases h
        simp_all
      · exact List.mem_cons_of_mem _ (ih h)

theorem alookup_aupsert_self {α : Type} (l : List (String × α)) (k : String) (v : α) :
    alookup (aupsert l k v) k = some v := by
  induction l with
  | nil => simp [aupsert, alookup]
  | cons p rest ih =>
      obtain ⟨k', v'⟩ := p
      simp only [aupsert]
      split
      · simp [alookup, *]
      · simp only [alookup]
        split
        · simp_all
        · exact ih

theorem alookup_aupsert_ne {α : Type} (l : List (String × α)) {k k' : String} (v : α)
    (h : k' ≠ k) : alookup (aupsert l k v) k' = alookup l k' := by
  induction l with
  | nil =>
      simp only [aupsert, alookup]
      rw [if_neg (fun hh => h hh.symm)]
  | cons p rest ih =>
      obtain ⟨k0, v0⟩ := p
      simp only [aupsert]
      split
      · simp only [alookup]
        split
        · simp_all
        · rfl
      · simp only [alookup]
        split
        · rfl
        · exact ih

/-! ### Invariants of the node arena -/

theorem alookup_eq_none {α : Type} {l : List (String × α)} {k : String} :
    alookup l k = none ↔ k ∉ l.map Prod.fst := by
  induction l with
  | nil => simp [alookup]
  | cons p rest ih =>
      obtain ⟨k0, v0⟩ := p
      simp only [alookup, List.map_cons, List.mem_cons]
      split
      · constructor
        · intro hh; simp at hh
        · intro hh
          exact absurd (Or.inl (by simp_all)) hh
      · rw [ih]
        have hk : ¬k = k0 := fun hh => by simp_all
        simp [hk]

theorem nodesOk_mono {nid nid' : Nat} {ns : List (String × Node)}
    (h : nid ≤ nid') (hok : nodesOk nid ns) : nodesOk nid' ns :=
  ⟨hok.1, hok.2.1, fun p hp => lt_of_lt_of_le (hok.2.2 p hp) h⟩

theorem get_node_found {ns : List (String × Node)} {nid : Nat} {k : String}
    {lbl c : Option String} {fu : Bool} {n : Node}
    (h : alookup ns (actualKey k nid fu) = some n) :
    get_node ns nid k lbl c fu = (n.id, ns, nid) := by
  simp [get_node, h]

theorem get_node_fresh {ns : List (String × Node)} {nid : Nat} {k : String}
    {lbl c : Option String} {fu : Bool}
    (h : alookup ns (actualKey k nid fu) = none) :
    get_node ns nid k lbl c fu =
      (nid, ns ++ [(actualKey k nid fu, ⟨nid, c, lbl.getD k⟩)], nid + 1) := by
  simp [get_node, h]

theorem get_node_extend (ns : List (String × Node)) (nid : Nat) (k : String)
    (lbl c : Option String) (fu : Bool) :
    ∃ t, (get_node ns nid k lbl c fu).2.1 = ns ++ t := by
  cases h : alookup ns (actualKey k nid fu) with
  | some n => exact ⟨[], by simp [get_node_found h]⟩
  | none => exact ⟨_, by rw [get_node_fresh h]⟩

theorem get_node_le (ns : List (String × Node)) (nid : Nat) (k : String)
    (lbl c : Option String) (fu : Bool) :
    nid ≤ (get_node ns nid k lbl c fu).2.2 := by
  cases h : alookup ns (actualKey k nid fu) with
  | some n => simp [get_node_found h]
  | none => simp [get_node_fresh h]

theorem get_node_preserve {ns : List (String × Node)} {nid : Nat} {k : String}
    {lbl c : Option String} {fu : Bool} {k2 : String} {v : Node}
    (h : alookup ns k2 = some v) :
    alookup (get_node ns nid k lbl c fu).2.1 k2 = some v := by
  obtain ⟨t, ht⟩ := get_node_extend ns nid k lbl c fu
  rw [ht]
  exact alookup_append_some t h

theorem get_node_self (ns : List (String × Node)) (nid : Nat) (k : String)
    (lbl c : Option String) (fu : Bool) :
    ∃ n, alookup (get_node ns nid k lbl c fu).2.1 (actualKey k nid fu) = some n ∧
      n.id = (get_node ns nid k lbl c fu).1 := by
  cases h : alookup ns (actualKey k nid fu) with
  | some n => exact ⟨n, by simp [get_node_found h, h]⟩
  | none =>
      refine ⟨⟨nid, c, lbl.getD k⟩, ?_, by simp [get_node_fresh h]⟩
      rw [get_node_fresh h]
      simp only []
      rw [alookup_append_none _ h]
      simp [alookup]

theorem get_node_ok {ns : List (String × Node)} {nid : Nat} (k : String)
    (lbl c : Option String) (fu : Bool) (hok : nodesOk nid ns) :
    nodesOk (get_node ns nid k lbl c fu).2.2 (get_node ns nid k lbl c fu).2.1 := by
  cases h : alookup ns (actualKey k nid fu) with
  | some n => rw [get_node_found h]; exact hok
  | none =>
      rw [get_node_fresh h]
      refine ⟨?_, ?_, ?_⟩
      · simp only [List.map_append, List.map_cons, List.map_nil]
        rw [List.nodup_append]
        refine ⟨hok.1, List.nodup_singleton _, ?_⟩
        intro a ha hb
        simp only [List.mem_singleton] at hb
        subst hb
        exact (alookup_eq_none.mp h) ha
      · simp only [List.map_append, List.map_cons, List.map_nil]
        rw [List.nodup_append]
        refine ⟨hok.2.1, List.nodup_singleton _, ?_⟩
        intro a ha hb
        simp only [List.mem_singleton] at hb
        subst hb
        obtain ⟨p, hp, hpa⟩ := List.mem_map.mp ha
        exact absurd hpa (Nat.ne_of_lt (hok.2.2 p hp))
      · intro p hp
        rcases List.mem_append.mp hp with hl | hr
        · exact Nat.lt_succ_of_lt (hok.2.2 p hl)
        · simp only [List.mem_singleton] at hr
          subst hr
          exact Nat.lt_succ_self _

theorem get_node_id_lt {ns : List (String × Node)} {nid : Nat} (k : String)
    (lbl c : Option String) (fu : Bool) (hok : nodesOk nid ns) :
    (get_node ns nid k lbl c fu).1 < (get_node ns nid k lbl c fu).2.2 := by
  cases h : alookup ns (actualKey k nid fu) with
  | some n =>
      rw [get_node_found h]
      exact hok.2.2 _ (alookup_mem h)
  | none => rw [get_node_fresh h]; exact Nat.lt_succ_self _

/-- `next_id` never decreases across the six calls of one row. -/
theorem get_node_nid_cases (ns : List (String × Node)) (nid : Nat) (k : String)
    (lbl c : Option String) (fu : Bool) :
    (get_node ns nid k lbl c fu).2.2 = nid ∨
      ((get_node ns nid k lbl c fu).1 = nid ∧
        (get_node ns nid k lbl c fu).2.2 = nid + 1) := by
  cases h : alookup ns (actualKey k nid fu) with
  | some n => left; rw [get_node_found h]
  | none => right; rw [get_node_fresh h]; exact ⟨rfl, rfl⟩

theorem extend_trans {α : Type} {a b d : List α} (h1 : ∃ t, b = a ++ t)
    (h2 : ∃ t, d = b ++ t) : ∃ t, d = a ++ t := by
  obtain ⟨t1, rfl⟩ := h1
  obtain ⟨t2, rfl⟩ := h2
  exact ⟨t1 ++ t2, List.append_assoc a t1 t2⟩

theorem preserve_of_extend {a b : List (String × Node)} (h : ∃ t, b = a ++ t)
    {k : String} {v : Node} (hl : alookup a k = some v) : alookup b k = some v := by
  obtain ⟨t, rfl⟩ := h
  exact alookup_append_some t hl

/-! Per-stage facts for `cs1`-`cs6`: the node arena only grows, the
counter only grows, and well-formedness is preserved. -/

theorem cs1_extend (c : Cluster) (nid : Nat) (L : RowLabels) :
    ∃ t, (cs1 c nid L).2.1 = c.nodes ++ t := get_node_extend ..

theorem cs2_extend (c : Cluster) (nid : Nat) (L : RowLabels) :
    ∃ t, (cs2 c nid L).2.1 = c.nodes ++ t :=
  extend_trans (cs1_extend c nid L) (get_node_extend ..)

theorem cs3_extend (c : Cluster) (nid : Nat) (L : RowLabels) :
    ∃ t, (cs3 c nid L).2.1 = c.nodes ++ t :=
  extend_trans (cs2_extend c nid L) (get_node_extend ..)

theorem cs4_extend (c : Cluster) (nid : Nat) (L : RowLabels) :
    ∃ t, (cs4 c nid L).2.1 = c.nodes ++ t :=
  extend_trans (cs3_extend c nid L) (get_node_extend ..)

theorem cs5_extend (c : Cluster) (nid : Nat) (L : RowLabels) :
    ∃ t, (cs5 c nid L).2.1 = c.nodes ++ t :=
  extend_trans (cs4_extend c nid L) (get_node_extend ..)

theorem cs6_extend (c : Cluster) (nid : Nat) (L : RowLabels) :
    ∃ t, (cs6 c nid L).2.1 = c.nodes ++ t :=
  extend_trans (cs5_extend c nid L) (get_node_extend ..)

theorem cs5_extend_to_cs6 (c : Cluster) (nid : Nat) (L : RowLabels) :
    ∃ t, (cs6 c nid L).2.1 = (cs5 c nid L).2.1 ++ t := get_node_extend ..

theorem cs4_extend_to_cs6 (c : Cluster) (nid : Nat) (L : RowLabels) :
    ∃ t, (cs6 c nid L).2.1 = (cs4 c nid L).2.1 ++ t :=
  extend_trans (get_node_extend ..) (cs5_extend_to_cs6 c nid L)

theorem cs1_le (c : Cluster) (nid : Nat) (L : RowLabels) :
    nid ≤ (cs1 c nid L).2.2 := get_node_le ..

theorem cs2_le (c : Cluster) (nid : Nat) (L : RowLabels) :
    nid ≤ (cs2 c nid L).2.2 := le_trans (cs1_le c nid L) (get_node_le ..)

theorem cs3_le (c : Cluster) (nid : Nat) (L : RowLabels) :
    nid ≤ (cs3 c nid L).2.2 := le_trans (cs2_le c nid L) (get_node_le ..)

theorem cs4_le (c : Cluster) (nid : Nat) (L : RowLabels) :
    nid ≤ (cs4 c nid L).2.2 := le_trans (cs3_le c nid L) (get_node_le ..)

theorem cs5_le (c : Cluster) (nid : Nat) (L : RowLabels) :
    nid ≤ (cs5 c nid L).2.2 := le_trans (cs4_le c nid L) (get_node_le ..)

theorem cs6_le (c : Cluster) (nid : Nat) (L : RowLabels) :
    nid ≤ (cs6 c nid L).2.2 := le_trans (cs5_le c nid L) (get_node_le ..)

theorem cs6_ok {c : Cluster} {nid : Nat} {L : RowLabels}
    (hok : nodesOk nid c.nodes) : nodesOk (cs6 c nid L).2.2 (cs6 c nid L).2.1 :=
  get_node_ok _ _ _ _ (get_node_ok _ _ _ _ (get_node_ok _ _ _ _ (get_node_ok _ _ _ _
    (get_node_ok _ _ _ _ (get_node_ok _ _ _ _ hok)))))

/-! Facts about `clusterStep`: all of its projections are definitionally
stage projections, so the stage lemmas transfer directly. -/

theorem clusterStep_nodes_extend (c : Cluster) (nid : Nat) (L : RowLabels) :
    ∃ t, (clusterStep c nid L).1.nodes = c.nodes ++ t := cs6_extend c nid L

theorem clusterStep_le (c : Cluster) (nid : Nat) (L : RowLabels) :
    nid ≤ (clusterStep c nid L).2.1 := cs6_le c nid L

theorem clusterStep_ok {c : Cluster} {nid : Nat} {L : RowLabels}
    (hok : nodesOk nid c.nodes) :
    nodesOk (clusterStep c nid L).2.1 (clusterStep c nid L).1.nodes := cs6_ok hok

theorem insertEdge_mono {es : List (Nat × Nat)} {e x : Nat × Nat} (h : x ∈ es) :
    x ∈ insertEdge es e := by
  unfold insertEdge
  split
  · exact h
  · exact List.mem_append_left _ h

theorem insertEdge_self (es : List (Nat × Nat)) (e : Nat × Nat) :
    e ∈ insertEdge es e := by
  unfold insertEdge
  split
  · assumption
  · exact List.mem_append_right _ (List.mem_singleton_self e)

theorem foldl_insertEdge_mono (l : List (Nat × Nat)) {es : List (Nat × Nat)}
    {x : Nat × Nat} (h : x ∈ es) : x ∈ l.foldl insertEdge es := by
  induction l generalizing es with
  | nil => exact h
  | cons a rest ih => exact ih (insertEdge_mono h)

theorem foldl_insertEdge_of_mem {l : List (Nat × Nat)} (es : List (Nat × Nat))
    {x : Nat × Nat} (h : x ∈ l) : x ∈ l.foldl insertEdge es := by
  induction l generalizing es with
  | nil => simp at h
  | cons a rest ih =>
      rcases List.mem_cons.mp h with rfl | hm
      · exact foldl_insertEdge_mono rest (insertEdge_self es x)
      · exact ih _ hm

theorem clusterStep_edges_mono (c : Cluster) (nid : Nat) (L : RowLabels)
    {e : Nat × Nat} (h : e ∈ c.edges) : e ∈ (clusterStep c nid L).1.edges :=
  foldl_insertEdge_mono _ h

/-- The protocol→port edge of the processed row is in the cluster. -/
theorem clusterStep_edge_proto_port (c : Cluster) (nid : Nat) (L : RowLabels) :
    ((clusterStep c nid L).2.2.proto, (clusterStep c nid L).2.2.port) ∈
      (clusterStep c nid L).1.edges :=
  foldl_insertEdge_of_mem _ (List.mem_cons_of_mem _ (List.mem_cons_of_mem _
    (List.mem_cons_of_mem _ (List.mem_cons_self _ _))))

/-- After the row, the protocol key maps to the node whose id the row
reports for its protocol node. -/
theorem clusterStep_proto_after (c : Cluster) (nid : Nat) (L : RowLabels) :
    ∃ n, alookup (clusterStep c nid L).1.nodes L.protoKey = some n ∧
      n.id = (clusterStep c nid L).2.2.proto := by
  obtain ⟨n, hn, hid⟩ := get_node_self (cs3 c nid L).2.1 (cs3 c nid L).2.2
    L.protoKey (some L.protoLabel) none false
  rw [show actualKey L.protoKey (cs3 c nid L).2.2 false = L.protoKey from rfl] at hn
  exact ⟨n, preserve_of_extend (cs4_extend_to_cs6 c nid L) hn, hid⟩

/-- After the row, the port key maps to the node whose id the row
reports for its port node. -/
theorem clusterStep_port_after (c : Cluster) (nid : Nat) (L : RowLabels) :
    ∃ n, alookup (clusterStep c nid L).1.nodes L.portKey = some n ∧
      n.id = (clusterStep c nid L).2.2.port := by
  obtain ⟨n, hn, hid⟩ := get_node_self (cs4 c nid L).2.1 (cs4 c nid L).2.2
    L.portKey (some L.portLabel) none false
  rw [show actualKey L.portKey (cs4 c nid L).2.2 false = L.portKey from rfl] at hn
  exact ⟨n, preserve_of_extend (cs5_extend_to_cs6 c nid L) hn, hid⟩

/-- A protocol key already present in the cluster is factored: the row
reuses the existing node. -/
theorem clusterStep_proto_found {c : Cluster} {nid : Nat} {L : RowLabels}
    {n : Node} (h : alookup c.nodes L.protoKey = some n) :
    (clusterStep c nid L).2.2.proto = n.id := by
  have h3 : alookup (cs3 c nid L).2.1 L.protoKey = some n :=
    preserve_of_extend (cs3_extend c nid L) h
  show (cs4 c nid L).1 = n.id
  unfold cs4
  rw [get_node_found (show alookup (cs3 c nid L).2.1
    (actualKey L.protoKey (cs3 c nid L).2.2 false) = some n from h3)]

/-- In a floating-rules cluster the destination call is factored by the
destination label: an existing label is reused. -/
theorem clusterStep_dest_found_float {c : Cluster} {nid : Nat} {L : RowLabels}
    (hf : L.isFloat = true) {n : Node} (h : alookup c.nodes L.destLabel = some n) :
    (clusterStep c nid L).2.2.dest = n.id := by
  have h5 : alookup (cs5 c nid L).2.1 L.destLabel = some n :=
    preserve_of_extend (cs5_extend c nid L) h
  show (cs6 c nid L).1 = n.id
  unfold cs6
  rw [hf]
  simp only [Bool.not_true]
  rw [get_node_found (show alookup (cs5 c nid L).2.1
    (actualKey L.destLabel (cs5 c nid L).2.2 false) = some n from h5)]

/-- In a floating-rules cluster, after the row the destination label maps
to the node the row reports as its destination node. -/
theorem clusterStep_dest_after_float (c : Cluster) (nid : Nat) {L : RowLabels}
    (hf : L.isFloat = true) :
    ∃ n, alookup (clusterStep c nid L).1.nodes L.destLabel = some n ∧
      n.id = (clusterStep c nid L).2.2.dest := by
  obtain ⟨n, hn, hid⟩ := get_node_self (cs5 c nid L).2.1 (cs5 c nid L).2.2
    L.destLabel none L.destColor (!L.isFloat)
  rw [hf] at hn
  rw [show actualKey L.destLabel (cs5 c nid L).2.2 (!true) = L.destLabel from rfl] at hn
  refine ⟨n, ?_, hid⟩
  show alookup (cs6 c nid L).2.1 L.destLabel = some n
  unfold cs6
  rw [hf]
  exact hn

/-- When the destination call actually allocated (`destFresh`), the
reported destination id is the pre-call counter value and the counter
advanced exactly past it. -/
theorem clusterStep_destFresh {c : Cluster} {nid : Nat} {L : RowLabels}
    (h : (clusterStep c nid L).2.2.destFresh = true) :
    nid ≤ (clusterStep c nid L).2.2.dest ∧
      (clusterStep c nid L).2.1 = (clusterStep c nid L).2.2.dest + 1 := by
  have hlt : (cs5 c nid L).2.2 < (cs6 c nid L).2.2 := of_decide_eq_true h
  rcases get_node_nid_cases (cs5 c nid L).2.1 (cs5 c nid L).2.2 L.destLabel
    none L.destColor (!L.isFloat) with hsame | ⟨hid, hsucc⟩
  · exact absurd (show (cs6 c nid L).2.2 = (cs5 c nid L).2.2 from hsame)
      (Nat.ne_of_gt hlt)
  · constructor
    · show nid ≤ (cs6 c nid L).1
      rw [show (cs6 c nid L).1 = (cs5 c nid L).2.2 from hid]
      exact cs5_le c nid L
    · show (cs6 c nid L).2.2 = (cs6 c nid L).1 + 1
      rw [show (cs6 c nid L).1 = (cs5 c nid L).2.2 from hid]
      exact hsucc

theorem GInv_empty : GInv emptyGState := by
  intro g s
  simp [clusterOf, emptyGState, alookup, emptyCluster, nodesOk]

/-- With no interface filter, no row is skipped. -/
theorem computeRowLabels_skip_none (details : List (String × AliasInfo))
    (row : CanonRow) : (computeRowLabels details none row).skip = false := rfl

/-- The effect of one unfiltered row on the state, expressed through
`clusterOf` and `clusterStep`. -/
theorem processRowCore_spec (details : List (String × AliasInfo))
    (flt : Option String) (st : GState) (row : CanonRow)
    (hskip : (computeRowLabels details flt row).skip = false) :
    processRowCore details flt st row =
      (⟨aupsert st.flows (computeRowLabels details flt row).gatewayKey
          (aupsert ((alookup st.flows (computeRowLabels details flt row).gatewayKey).getD [])
            (computeRowLabels details flt row).sourceKey
            (clusterStep (clusterOf st (computeRowLabels details flt row).gatewayKey
              (computeRowLabels details flt row).sourceKey) st.nextId
              (computeRowLabels details flt row)).1),
        (clusterStep (clusterOf st (computeRowLabels details flt row).gatewayKey
          (computeRowLabels details flt row).sourceKey) st.nextId
          (computeRowLabels details flt row)).2.1⟩,
       some (clusterStep (clusterOf st (computeRowLabels details flt row).gatewayKey
         (computeRowLabels details flt row).sourceKey) st.nextId
         (computeRowLabels details flt row)).2.2) := by
  unfold processRowCore
  dsimp only
  rw [hskip]
  rfl

theorem processRow_skip (details : List (String × AliasInfo))
    (flt : Option String) (st : GState) (row : CanonRow)
    (hskip : (computeRowLabels details flt row).skip = true) :
    processRow details flt st row = st := by
  unfold processRow processRowCore
  dsimp only
  rw [hskip]
  rfl

/-- The target sub-cluster of an unfiltered row is replaced by its
`clusterStep` image. -/
theorem processRow_cluster_self (details : List (String × AliasInfo))
    (flt : Option String) (st : GState) (row : CanonRow)
    (hskip : (computeRowLabels details flt row).skip = false) :
    clusterOf (processRow details flt st row)
        (computeRowLabels details flt row).gatewayKey
        (computeRowLabels details flt row).sourceKey =
      (clusterStep (clusterOf st (computeRowLabels details flt row).gatewayKey
        (computeRowLabels details flt row).sourceKey) st.nextId
        (computeRowLabels details flt row)).1 := by
  unfold processRow
  rw [processRowCore_spec details flt st row hskip]
  unfold clusterOf
  rw [alookup_aupsert_self]
  simp only [Option.getD_some]
  rw [alookup_aupsert_self]
  rfl

/-- Sub-clusters other than the row's target are untouched. -/
theorem processRow_cluster_other (details : List (String × AliasInfo))
    (flt : Option String) (st : GState) (row : CanonRow) {g s : String}
    (hne : ¬(g = (computeRowLabels details flt row).gatewayKey ∧
      s = (computeRowLabels details flt row).sourceKey)) :
    clusterOf (processRow details flt st row) g s = clusterOf st g s := by
  cases hskip : (computeRowLabels details flt row).skip with
  | true => rw [processRow_skip details flt st row hskip]
  | false =>
      unfold processRow
      rw [processRowCore_spec details flt st row hskip]
      unfold clusterOf
      by_cases hg : g = (computeRowLabels details flt row).gatewayKey
      · subst hg
        have hs : s ≠ (computeRowLabels details flt row).sourceKey := by
          intro hh; exact hne ⟨rfl, hh⟩
        rw [alookup_aupsert_self]
        simp only [Option.getD_some]
        rw [alookup_aupsert_ne _ _ hs]
      · rw [alookup_aupsert_ne _ _ hg]

theorem processRow_nextId_le (details : List (String × AliasInfo))
    (flt : Option String) (st : GState) (row : CanonRow) :
    st.nextId ≤ (processRow details flt st row).nextId := by
  cases hskip : (computeRowLabels details flt row).skip with
  | true => rw [processRow_skip details flt st row hskip]
  | false =>
      unfold processRow
      rw [processRowCore_spec details flt st row hskip]
      exact clusterStep_le ..

theorem processRow_nextId (details : List (String × AliasInfo))
    (flt : Option String) (st : GState) (row : CanonRow)
    (hskip : (computeRowLabels details flt row).skip = false) :
    (processRow details flt st row).nextId =
      (clusterStep (clusterOf st (computeRowLabels details flt row).gatewayKey
        (computeRowLabels details flt row).sourceKey) st.nextId
        (computeRowLabels details flt row)).2.1 := by
  unfold processRow
  rw [processRowCore_spec details flt st row hskip]

theorem processRow_GInv (details : List (String × AliasInfo))
    (flt : Option String) (st : GState) (row : CanonRow) (hinv : GInv st) :
    GInv (processRow details flt st row) := by
  cases hskip : (computeRowLabels details flt row).skip with
  | true => rw [processRow_skip details flt st row hskip]; exact hinv
  | false =>
      intro g s
      by_cases htgt : g = (computeRowLabels details flt row).gatewayKey ∧
          s = (computeRowLabels details flt row).sourceKey
      · obtain ⟨rfl, rfl⟩ := htgt
        rw [processRow_cluster_self details flt st row hskip,
          processRow_nextId details flt st row hskip]
        exact clusterStep_ok (hinv _ _)
      · rw [processRow_cluster_other details flt st row htgt]
        exact nodesOk_mono (processRow_nextId_le details flt st row) (hinv g s)

theorem processRow_preserve_nodes (details : List (String × AliasInfo))
    (flt : Option String) (st : GState) (row : CanonRow) (g s : String)
    {k : String} {v : Node} (h : alookup (clusterOf st g s).nodes k = some v) :
    alookup (clusterOf (processRow details flt st row) g s).nodes k = some v := by
  cases hskip : (computeRowLabels details flt row).skip with
  | true => rw [processRow_skip details flt st row hskip]; exact h
  | false =>
      by_cases htgt : g = (computeRowLabels details flt row).gatewayKey ∧
          s = (computeRowLabels details flt row).sourceKey
      · obtain ⟨rfl, rfl⟩ := htgt
        rw [processRow_cluster_self details flt st row hskip]
        exact preserve_of_extend (clusterStep_nodes_extend ..) h
      · rw [processRow_cluster_other details flt st row htgt]
        exact h

theorem processRow_preserve_edges (details : List (String × AliasInfo))
    (flt : Option String) (st : GState) (row : CanonRow) (g s : String)
    {e : Nat × Nat} (h : e ∈ (clusterOf st g s).edges) :
    e ∈ (clusterOf (processRow details flt st row) g s).edges := by
  cases hskip : (computeRowLabels details flt row).skip with
  | true => rw [processRow_skip details flt st row hskip]; exact h
  | false =>
      by_cases htgt : g = (computeRowLabels details flt row).gatewayKey ∧
          s = (computeRowLabels details flt row).sourceKey
      · obtain ⟨rfl, rfl⟩ := htgt
        rw [processRow_cluster_self details flt st row hskip]
        exact clusterStep_edges_mono _ _ _ h
      · rw [processRow_cluster_other details flt st row htgt]
        exact h

/-! The same facts lifted over a whole list of rows. -/

theorem foldl_GInv (details : List (String × AliasInfo)) (flt : Option String)
    (rows : List CanonRow) (st : GState) (hinv : GInv st) :
    GInv (rows.foldl (processRow details flt) st) := by
  induction rows generalizing st with
  | nil => exact hinv
  | cons r rest ih => exact ih _ (processRow_GInv details flt st r hinv)

theorem foldl_nextId_le (details : List (String × AliasInfo)) (flt : Option String)
    (rows : List CanonRow) (st : GState) :
    st.nextId ≤ (rows.foldl (processRow details flt) st).nextId := by
  induction rows generalizing st with
  | nil => exact le_refl _
  | cons r rest ih =>
      exact le_trans (processRow_nextId_le details flt st r) (ih _)

theorem foldl_preserve_nodes (details : List (String × AliasInfo))
    (flt : Option String) (rows : List CanonRow) (st : GState) (g s : String)
    {k : String} {v : Node} (h : alookup (clusterOf st g s).nodes k = some v) :
    alookup (clusterOf (rows.foldl (processRow details flt) st) g s).nodes k = some v := by
  induction rows generalizing st with
  | nil => exact h
  | cons r rest ih =>
      exact ih _ (processRow_preserve_nodes details flt st r g s h)

theorem foldl_preserve_edges (details : List (String × AliasInfo))
    (flt : Option String) (rows : List CanonRow) (st : GState) (g s : String)
    {e : Nat × Nat} (h : e ∈ (clusterOf st g s).edges) :
    e ∈ (clusterOf (rows.foldl (processRow details flt) st) g s).edges := by
  induction rows generalizing st with
  | nil => exact h
  | cons r rest ih =>
      exact ih _ (processRow_preserve_edges details flt st r g s h)

theorem string_append_cancel_right {p1 p2 t : String} (h : p1 ++ t = p2 ++ t) :
    p1 = p2 := by
  apply String.ext
  have hd := congrArg String.data h
  simp only [String.data_append] at hd
  exact List.append_cancel_right hd

theorem computeRowLabels_protoKey (details : List (String × AliasInfo))
    (flt : Option String) (r : CanonRow) :
    (computeRowLabels details flt r).protoKey = rowProtocol r ++ "|" ++ rowAction r := rfl

theorem computeRowLabels_portKey (details : List (String × AliasInfo))
    (flt : Option String) (r : CanonRow) :
    (computeRowLabels details flt r).portKey =
      rowPorts r ++ "|" ++ (rowProtocol r ++ "|" ++ rowAction r) := rfl

theorem computeRowLabels_isFloat (details : List (String × AliasInfo))
    (flt : Option String) (r : CanonRow) :
    (computeRowLabels details flt r).isFloat =
      isFloatOf (computeRowLabels details flt r).gatewayKey := rfl

/-! Deduplication lemmas, generic in the per-vendor id function. -/

theorem truthyId_jStr_eq_false {s : String} :
    truthyId (.jStr s) = false ↔ s = "" := by
  simp [truthyId]

theorem dedupByGo_mem {α : Type} (f : α → IdVal) (seen : List IdVal)
    (l : List α) {e : α} (h : e ∈ dedupByGo f seen l) :
    truthyId (f e) = true ∧ f e ∉ seen := by
  induction l generalizing seen with
  | nil => simp [dedupByGo] at h
  | cons a rest ih =>
      simp only [dedupByGo] at h
      split at h
      case isTrue hc =>
        rcases List.mem_cons.mp h with rfl | hm
        · exact ⟨hc.1, hc.2⟩
        · have hrec := ih _ hm
          exact ⟨hrec.1, fun hmem => hrec.2 (List.mem_cons_of_mem _ hmem)⟩
      case isFalse => exact ih _ h

theorem dedupByGo_ids_nodup {α : Type} (f : α → IdVal) (seen : List IdVal)
    (l : List α) : ((dedupByGo f seen l).map f).Nodup := by
  induction l generalizing seen with
  | nil => simp [dedupByGo]
  | cons a rest ih =>
      simp only [dedupByGo]
      split
      case isTrue hc =>
        simp only [List.map_cons, List.nodup_cons]
        constructor
        · intro hmem
          obtain ⟨x, hx, hfx⟩ := List.mem_map.mp hmem
          exact (dedupByGo_mem f _ rest hx).2 (hfx ▸ List.mem_cons_self _ _)
        · exact ih _
      case isFalse => exact ih _

theorem dedupByGo_filter_seen {α : Type} (f : α → IdVal) (l : List α)
    {seen : List IdVal} {v : IdVal} (hv : v ∈ seen) :
    (dedupByGo f seen l).filter (fun e => f e == v) = [] := by
  induction l generalizing seen with
  | nil => simp [dedupByGo]
  | cons a rest ih =>
      simp only [dedupByGo]
      split
      case isTrue hc =>
        have hne : (f a == v) = false := by
          simp only [beq_eq_false_iff_ne, ne_eq]
          intro hh
          exact hc.2 (hh ▸ hv)
        simp only [List.filter_cons, hne]
        exact ih (List.mem_cons_of_mem _ hv)
      case isFalse => exact ih hv

theorem dedupByGo_filter_first {α : Type} (f : α → IdVal) (l : List α)
    {seen : List IdVal} {v : IdVal} (hv : truthyId v = true) (hnv : v ∉ seen) :
    (dedupByGo f seen l).filter (fun e => f e == v) =
      (l.filter (fun e => f e == v)).take 1 := by
  induction l generalizing seen with
  | nil => simp [dedupByGo]
  | cons a rest ih =>
      simp only [dedupByGo]
      by_cases hav : f a = v
      · have hguard : truthyId (f a) = true ∧ f a ∉ seen := ⟨hav ▸ hv, hav ▸ hnv⟩
        rw [if_pos ⟨hguard.1, hguard.2⟩]
        have hbeq : (f a == v) = true := by simp [hav]
        simp only [List.filter_cons, hbeq, if_true]
        rw [dedupByGo_filter_seen f rest (show v ∈ f a :: seen from hav ▸ List.mem_cons_self _ _)]
        simp [List.take]
      · have hbeq : (f a == v) = false := by simp [hav]
        split
        · simp only [List.filter_cons, hbeq]
          exact ih (fun hmem => by
            rcases List.mem_cons.mp hmem with h1 | h2
            · exact hav h1.symm
            · exact hnv h2)
        · simp only [List.filter_cons, hbeq]
          exact ih hnv

theorem string_append_eq_empty {a b : String} : a ++ b = "" ↔ a = "" ∧ b = "" := by
  constructor
  · intro h
    have hd := congrArg String.data h
    simp only [String.data_append] at hd
    have hn := List.append_eq_nil.mp hd
    exact ⟨String.ext hn.1, String.ext hn.2⟩
  · rintro ⟨rfl, rfl⟩
    rfl

/-! Alias-retention lemmas: where a key of each lookup table can
originate. -/

theorem foldl_alookup_origin {β α : Type} (P : AliasMaps → List (String × α))
    (step : AliasMaps → β → AliasMaps) (Q : β → String → Prop)
    (hstep : ∀ m a k v, alookup (P (step m a)) k = some v →
      alookup (P m) k = some v ∨ Q a k) :
    ∀ (l : List β) (m : AliasMaps) (k : String) (v : α),
      alookup (P (l.foldl step m)) k = some v →
      alookup (P m) k = some v ∨ ∃ a ∈ l, Q a k := by
  intro l
  induction l with
  | nil =>
      intro m k v h
      left
      exact h
  | cons a rest ih =>
      intro m k v h
      rcases ih (step m a) k v h with hh | ⟨b, hb, hq⟩
      · rcases hstep m a k v hh with h1 | h2
        · left; exact h1
        · right; exact ⟨a, List.mem_cons_self .., h2⟩
      · right; exact ⟨b, List.mem_cons_of_mem _ hb, hq⟩

theorem fetchPfAliasStep_netMap {m : AliasMaps} {a : PfAlias} {k : String}
    {v : String} (h : alookup (fetchPfAliasStep m a).netMap k = some v) :
    alookup m.netMap k = some v ∨ (a.type ≠ "port" ∧ k = pyLower a.name) := by
  simp only [fetchPfAliasStep] at h
  by_cases h1 : a.type = "host" ∨ a.type = "network"
  · rw [if_pos h1] at h
    dsimp only at h
    by_cases hk : k = pyLower a.name
    · right
      refine ⟨?_, hk⟩
      rcases h1 with h1 | h1 <;> simp [h1]
    · left
      rw [alookup_aupsert_ne _ _ hk] at h
      exact h
  · rw [if_neg h1] at h
    by_cases h2 : a.type = "port"
    · rw [if_pos h2] at h
      exact Or.inl h
    · rw [if_neg h2] at h
      dsimp only at h
      by_cases hk : k = pyLower a.name
      · exact Or.inr ⟨h2, hk⟩
      · left
        rw [alookup_aupsert_ne _ _ hk] at h
        exact h

theorem fetchPfAliasStep_addressMap {m : AliasMaps} {a : PfAlias} {k : String}
    {v : String} (h : alookup (fetchPfAliasStep m a).addressMap k = some v) :
    alookup m.addressMap k = some v ∨
      ((a.type = "host" ∨ a.type = "network") ∧ k = pyLower a.name) := by
  simp only [fetchPfAliasStep] at h
  by_cases h1 : a.type = "host" ∨ a.type = "network"
  · rw [if_pos h1] at h
    dsimp only at h
    by_cases hk : k = pyLower a.name
    · exact Or.inr ⟨h1, hk⟩
    · left
      rw [alookup_aupsert_ne _ _ hk] at h
      exact h
  · rw [if_neg h1] at h
    by_cases h2 : a.type = "port"
    · rw [if_pos h2] at h
      exact Or.inl h
    · rw [if_neg h2] at h
      exact Or.inl h

theorem fetchPfAliasStep_portMap {m : AliasMaps} {a : PfAlias} {k : String}
    {v : String} (h : alookup (fetchPfAliasStep m a).portMap k = some v) :
    alookup m.portMap k = some v ∨ (a.type = "port" ∧ k = pyLower a.name) := by
  simp only [fetchPfAliasStep] at h
  by_cases h1 : a.type = "host" ∨ a.type = "network"
  · rw [if_pos h1] at h
    exact Or.inl h
  · rw [if_neg h1] at h
    by_cases h2 : a.type = "port"
    · rw [if_pos h2] at h
      dsimp only at h
      by_cases hk : k = pyLower a.name
      · exact Or.inr ⟨h2, hk⟩
      · left
        rw [alookup_aupsert_ne _ _ hk] at h
        exact h
    · rw [if_neg h2] at h
      exact Or.inl h

/-- The gate every OPNSense alias must pass before touching any table. -/
def opnKept (a : OpnAlias) (k : String) : Prop :=
  a.enabled = "1" ∧ a.name ≠ "" ∧ k = pyLower a.name

theorem fetchOpnAliasStep_netMap {m : AliasMaps} {a : OpnAlias} {k : String}
    {v : String} (h : alookup (fetchOpnAliasStep m a).netMap k = some v) :
    alookup m.netMap k = some v ∨
      (opnKept a k ∧
        (opnSelectedType a = some "host" ∨ opnSelectedType a = some "network")) := by
  unfold fetchOpnAliasStep at h
  by_cases h1 : a.enabled ≠ "1"
  · rw [if_pos h1] at h
    exact Or.inl h
  · rw [if_neg h1] at h
    by_cases h2 : a.name = ""
    · rw [if_pos h2] at h
      exact Or.inl h
    · rw [if_neg h2] at h
      dsimp only at h
      cases ht : opnSelectedType a with
      | none => rw [ht] at h; exact Or.inl h
      | some t =>
          rw [ht] at h
          dsimp only at h
          by_cases h3 : t = "host" ∨ t = "network" ∨ t = "port"
          · rw [if_pos h3] at h
            by_cases h4 : t = "host" ∨ t = "network"
            · rw [if_pos h4] at h
              dsimp only at h
              by_cases hk : k = pyLower a.name
              · right
                refine ⟨⟨not_not.mp h1, h2, hk⟩, ?_⟩
                rcases h4 with h4 | h4
                · left; rw [← h4]
                · right; rw [← h4]
              · left
                rw [alookup_aupsert_ne _ _ hk] at h
                exact h
            · rw [if_neg h4] at h
              exact Or.inl h
          · rw [if_neg h3] at h
            exact Or.inl h

theorem fetchOpnAliasStep_addressMap {m : AliasMaps} {a : OpnAlias} {k : String}
    {v : String} (h : alookup (fetchOpnAliasStep m a).addressMap k = some v) :
    alookup m.addressMap k = some v ∨
      (opnKept a k ∧
        (opnSelectedType a = some "host" ∨ opnSelectedType a = some "network")) := by
  unfold fetchOpnAliasStep at h
  by_cases h1 : a.enabled ≠ "1"
  · rw [if_pos h1] at h
    exact Or.inl h
  · rw [if_neg h1] at h
    by_cases h2 : a.name = ""
    · rw [if_pos h2] at h
      exact Or.inl h
    · rw [if_neg h2] at h
      dsimp only at h
      cases ht : opnSelectedType a with
      | none => rw [ht] at h; exact Or.inl h
      | some t =>
          rw [ht] at h
          dsimp only at h
          by_cases h3 : t = "host" ∨ t = "network" ∨ t = "port"
          · rw [if_pos h3] at h
            by_cases h4 : t = "host" ∨ t = "network"
            · rw [if_pos h4] at h
              dsimp only at h
              by_cases hk : k = pyLower a.name
              · right
                refine ⟨⟨not_not.mp h1, h2, hk⟩, ?_⟩
                rcases h4 with h4 | h4
                · left; rw [← h4]
                · right; rw [← h4]
              · left
                rw [alookup_aupsert_ne _ _ hk] at h
                exact h
            · rw [if_neg h4] at h
              exact Or.inl h
          · rw [if_neg h3] at h
            exact Or.inl h

theorem fetchOpnAliasStep_portMap {m : AliasMaps} {a : OpnAlias} {k : String}
    {v : String} (h : alookup (fetchOpnAliasStep m a).portMap k = some v) :
    alookup m.portMap k = some v ∨
      (opnKept a k ∧ opnSelectedType a = some "port") := by
  unfold fetchOpnAliasStep at h
  by_cases h1 : a.enabled ≠ "1"
  · rw [if_pos h1] at h
    exact Or.inl h
  · rw [if_neg h1] at h
    by_cases h2 : a.name = ""
    · rw [if_pos h2] at h
      exact Or.inl h
    · rw [if_neg h2] at h
      dsimp only at h
      cases ht : opnSelectedType a with
      | none => rw [ht] at h; exact Or.inl h
      | some t =>
          rw [ht] at h
          dsimp only at h
          by_cases h3 : t = "host" ∨ t = "network" ∨ t = "port"
          · rw [if_pos h3] at h
            by_cases h4 : t = "host" ∨ t = "network"
            · rw [if_pos h4] at h
              exact Or.inl h
            · rw [if_neg h4] at h
              dsimp only at h
              by_cases hk : k = pyLower a.name
              · right
                refine ⟨⟨not_not.mp h1, h2, hk⟩, ?_⟩
                have ht4 : t = "port" := by
                  rcases h3 with h3 | h3 | h3
                  · exact absurd (Or.inl h3) h4
                  · exact absurd (Or.inr h3) h4
                  · exact h3
                rw [← ht4]
              · left
                rw [alookup_aupsert_ne _ _ hk] at h
                exact h
          · rw [if_neg h3] at h
            exact Or.inl h

theorem fetchOpnAliasStep_details {m : AliasMaps} {a : OpnAlias} {k : String}
    {v : AliasInfo} (h : alookup (fetchOpnAliasStep m a).aliasDetails k = some v) :
    alookup m.aliasDetails k = some v ∨
      (opnKept a k ∧ ∃ t, opnSelectedType a = some t ∧
        (t = "host" ∨ t = "network" ∨ t = "port")) := by
  unfold fetchOpnAliasStep at h
  by_cases h1 : a.enabled ≠ "1"
  · rw [if_pos h1] at h
    exact Or.inl h
  · rw [if_neg h1] at h
    by_cases h2 : a.name = ""
    · rw [if_pos h2] at h
      exact Or.inl h
    · rw [if_neg h2] at h
      dsimp only at h
      cases ht : opnSelectedType a with
      | none => rw [ht] at h; exact Or.inl h
      | some t =>
          rw [ht] at h
          dsimp only at h
          by_cases h3 : t = "host" ∨ t = "network" ∨ t = "port"
          · rw [if_pos h3] at h
            by_cases hk : k = pyLower a.name
            · exact Or.inr ⟨⟨not_not.mp h1, h2, hk⟩, t, rfl, h3⟩
            · left
              by_cases h4 : t = "host" ∨ t = "network"
              · rw [if_pos h4] at h
                dsimp only at h
                rw [alookup_aupsert_ne _ _ hk] at h
                exact h
              · rw [if_neg h4] at h
                dsimp only at h
                rw [alookup_aupsert_ne _ _ hk] at h
                exact h
          · rw [if_neg h3] at h
            exact Or.inl h

/-! ## Claim theorems -/

/-- **C2, counterexample.**  On the two specified canonical rows the
single `GW1/wan`→`LAN` cluster's edge set has 7 members, not the claimed
10: the three leading edges source→gateway, gateway→action and
action→protocol of the second row are identical directed pairs and are
deduplicated by the edge set. -/
theorem c2_counterexample :
    (clusterOf (generate_graphs [] none [c2rowA, c2rowB]) "GW1/wan" "LAN").edges.length = 7 ∧
    ¬(clusterOf (generate_graphs [] none [c2rowA, c2rowB]) "GW1/wan" "LAN").edges.length = 10 := by
  constructor
  · rfl
  · decide

/-- **C2, amended.**  The two canonical rows
`(src=LAN, gw=GW1/wan, action=PASS, proto=TCP, port=443, dest=WEB)` and
`(..., port=8443, ...)` produce exactly one graph for gateway `GW1/wan`
with one source sub-cluster `LAN`, one shared source node, one shared
gateway node, one shared action node, one shared protocol node, two
distinct port nodes, two distinct destination nodes, and 7 total edges
(5 directed edges are built per row and the cluster's edge set
deduplicates the three identical leading pairs). -/
theorem c2_two_rows_scenario :
    generate_graphs [] none [c2rowA, c2rowB] =
      ⟨[("GW1/wan", [("LAN",
          ⟨[("SOURCE | LAN", ⟨0, none, "SOURCE | LAN"⟩),
            ("GATEWAY | GW1/wan", ⟨1, none, "GATEWAY | GW1/wan"⟩),
            ("ACTION | PASS", ⟨2, some "#a3f7a3", "ACTION | PASS"⟩),
            ("TCP|PASS", ⟨3, none, "PROTOCOL | TCP"⟩),
            ("443|TCP|PASS", ⟨4, none, "PORT | 443"⟩),
            ("VLAN | WEB__5", ⟨5, none, "VLAN | WEB"⟩),
            ("8443|TCP|PASS", ⟨6, none, "PORT | 8443"⟩),
            ("VLAN | WEB__7", ⟨7, none, "VLAN | WEB"⟩)],
           [(0, 1), (1, 2), (2, 3), (3, 4), (4, 5), (3, 6), (6, 7)]⟩)])], 8⟩ := by
  rfl

/-- **C3, counterexample.**  Two rows (`c3row1` twice) with the identical
destination display label `SOURCE | LAN` in the same non-floating
cluster `GW1/wan`→`LAN__6` do NOT get two distinct destination nodes:
after `c3row0` has created the source node keyed `SOURCE | LAN__6`, the
force-unique destination key `destination_label + "__" + str(next_id)` =
`SOURCE | LAN__6` collides with that factored key, so both occurrences
silently reuse node 0 (the source node) — one shared destination node,
not two fresh ones. -/
theorem c3_counterexample :
    (computeRowLabels [] none c3row1).isFloat = false ∧
    (processRowCore [] none (processRow [] none emptyGState c3row0) c3row1).2 =
      some ⟨0, 1, 2, 3, 4, 0, false⟩ ∧
    (processRowCore [] none
      (processRow [] none (processRow [] none emptyGState c3row0) c3row1) c3row1).2 =
      some ⟨0, 1, 2, 3, 4, 0, false⟩ := by
  refine ⟨rfl, rfl, rfl⟩

/-- **C3, amended.**  For any two canonical rows with equal destination
display labels in the same (gateway, source) cluster: in a
floating-rules cluster both occurrences map to one shared destination
node; in a non-floating cluster, whenever both occurrences' force-unique
destination calls actually allocate (their synthesized
`label__{next_id}` key is not already present — the normal case), the
two destination nodes are distinct.  (When the synthesized key collides
with an existing node key the existing node is silently reused, see the
counterexample.) -/
theorem c3_destination_uniqueness
    (details : List (String × AliasInfo)) (st0 : GState) (r1 r2 : CanonRow)
    (mid : List CanonRow) (st1 st2 st3 : GState) (ids1 ids2 : RowIds)
    (h1 : processRowCore details none st0 r1 = (st1, some ids1))
    (hmid : mid.foldl (processRow details none) st1 = st2)
    (h2 : processRowCore details none st2 r2 = (st3, some ids2))
    (hg : (computeRowLabels details none r1).gatewayKey =
      (computeRowLabels details none r2).gatewayKey)
    (hs : (computeRowLabels details none r1).sourceKey =
      (computeRowLabels details none r2).sourceKey)
    (hdest : (computeRowLabels details none r1).destLabel =
      (computeRowLabels details none r2).destLabel) :
    ((computeRowLabels details none r1).isFloat = true → ids1.dest = ids2.dest) ∧
    ((computeRowLabels details none r1).isFloat = false → ids1.destFresh = true →
      ids2.destFresh = true → ids1.dest ≠ ids2.dest) := by
  have hskip1 := computeRowLabels_skip_none details r1
  have hskip2 := computeRowLabels_skip_none details r2
  rw [processRowCore_spec details none st0 r1 hskip1] at h1
  rw [processRowCore_spec details none st2 r2 hskip2] at h2
  injection h1 with hA hB
  injection hB with hB
  injection h2 with hC hD
  injection hD with hD
  have hpr1 : processRow details none st0 r1 = st1 := by
    unfold processRow
    rw [processRowCore_spec details none st0 r1 hskip1]
    exact hA
  have hpr2 : processRow details none st2 r2 = st3 := by
    unfold processRow
    rw [processRowCore_spec details none st2 r2 hskip2]
    exact hC
  have hcl1 := processRow_cluster_self details none st0 r1 hskip1
  rw [hpr1] at hcl1
  have hnext1 : st1.nextId =
      (clusterStep (clusterOf st0 (computeRowLabels details none r1).gatewayKey
        (computeRowLabels details none r1).sourceKey) st0.nextId
        (computeRowLabels details none r1)).2.1 := by
    rw [← hA]
  constructor
  · intro hf
    have hf2 : (computeRowLabels details none r2).isFloat = true := by
      rw [computeRowLabels_isFloat, ← hg, ← computeRowLabels_isFloat]
      exact hf
    obtain ⟨n, hn, hnid⟩ := clusterStep_dest_after_float
      (clusterOf st0 (computeRowLabels details none r1).gatewayKey
        (computeRowLabels details none r1).sourceKey) st0.nextId hf
    rw [hB] at hnid
    have hn1 : alookup (clusterOf st1 (computeRowLabels details none r1).gatewayKey
        (computeRowLabels details none r1).sourceKey).nodes
        (computeRowLabels details none r1).destLabel = some n := by
      rw [hcl1]; exact hn
    have hn2 : alookup (clusterOf st2 (computeRowLabels details none r2).gatewayKey
        (computeRowLabels details none r2).sourceKey).nodes
        (computeRowLabels details none r2).destLabel = some n := by
      rw [← hg, ← hs, ← hdest, ← hmid]
      exact foldl_preserve_nodes details none mid st1 _ _ hn1
    have hfound : (clusterStep (clusterOf st2
        (computeRowLabels details none r2).gatewayKey
        (computeRowLabels details none r2).sourceKey) st2.nextId
        (computeRowLabels details none r2)).2.2.dest = n.id :=
      clusterStep_dest_found_float hf2 hn2
    rw [hD] at hfound
    rw [hfound, hnid]
  · intro _ hfresh1 hfresh2
    have hc1 := clusterStep_destFresh (show
      (clusterStep (clusterOf st0 (computeRowLabels details none r1).gatewayKey
        (computeRowLabels details none r1).sourceKey) st0.nextId
        (computeRowLabels details none r1)).2.2.destFresh = true by
      rw [hB]; exact hfresh1)
    have hc2 := clusterStep_destFresh (show
      (clusterStep (clusterOf st2 (computeRowLabels details none r2).gatewayKey
        (computeRowLabels details none r2).sourceKey) st2.nextId
        (computeRowLabels details none r2)).2.2.destFresh = true by
      rw [hD]; exact hfresh2)
    rw [hB] at hc1
    rw [hD] at hc2
    have hle : st1.nextId ≤ st2.nextId := by
      rw [← hmid]
      exact foldl_nextId_le details none mid st1
    rw [hnext1] at hle
    rw [hc1.2] at hle
    have := hc2.1
    omega

/-- **C3 witness**: two identical floating rows (`FLOATING="True"`)
share one destination node (`node5`). -/
theorem c3_destination_uniqueness_witness :
    (computeRowLabels [] none c3wrow).isFloat = true ∧
    (⟨0, 1, 2, 3, 4, 5, true⟩ : RowIds).dest = (⟨0, 1, 2, 3, 4, 5, false⟩ : RowIds).dest :=
  ⟨by decide,
   (c3_destination_uniqueness [] emptyGState c3wrow c3wrow []
      (processRowCore [] none emptyGState c3wrow).1
      (processRowCore [] none emptyGState c3wrow).1
      (processRowCore [] none (processRowCore [] none emptyGState c3wrow).1 c3wrow).1
      ⟨0, 1, 2, 3, 4, 5, true⟩ ⟨0, 1, 2, 3, 4, 5, false⟩
      (by decide) rfl (by decide) rfl rfl rfl).1 (by decide)⟩

/-- **C4 (claim).**  Two canonical rows in the same (gateway, source)
cluster with equal normalized protocol and action but different
normalized ports get two distinct port nodes (keyed by the
`"{ports}|{protocol}|{action}"` triple) which both connect, by a
protocol→port edge, to one shared protocol node (keyed by the
`"{protocol}|{action}"` pair). -/
theorem c4_port_protocol_factorization
    (details : List (String × AliasInfo)) (st0 : GState) (r1 r2 : CanonRow)
    (mid : List CanonRow) (st1 st2 st3 : GState) (ids1 ids2 : RowIds)
    (hinv : GInv st0)
    (h1 : processRowCore details none st0 r1 = (st1, some ids1))
    (hmid : mid.foldl (processRow details none) st1 = st2)
    (h2 : processRowCore details none st2 r2 = (st3, some ids2))
    (hg : (computeRowLabels details none r1).gatewayKey =
      (computeRowLabels details none r2).gatewayKey)
    (hs : (computeRowLabels details none r1).sourceKey =
      (computeRowLabels details none r2).sourceKey)
    (hprotocol : rowProtocol r1 = rowProtocol r2)
    (haction : rowAction r1 = rowAction r2)
    (hports : rowPorts r1 ≠ rowPorts r2) :
    ids1.port ≠ ids2.port ∧ ids1.proto = ids2.proto ∧
    (ids1.proto, ids1.port) ∈ (clusterOf st3
      (computeRowLabels details none r1).gatewayKey
      (computeRowLabels details none r1).sourceKey).edges ∧
    (ids2.proto, ids2.port) ∈ (clusterOf st3
      (computeRowLabels details none r1).gatewayKey
      (computeRowLabels details none r1).sourceKey).edges := by
  have hproto : (computeRowLabels details none r1).protoKey =
      (computeRowLabels details none r2).protoKey := by
    rw [computeRowLabels_protoKey, computeRowLabels_protoKey, hprotocol, haction]
  have hport : (computeRowLabels details none r1).portKey ≠
      (computeRowLabels details none r2).portKey := by
    rw [computeRowLabels_portKey, computeRowLabels_portKey, hprotocol, haction]
    intro hh
    exact hports (string_append_cancel_right (string_append_cancel_right hh))
  have hskip1 := computeRowLabels_skip_none details r1
  have hskip2 := computeRowLabels_skip_none details r2
  rw [processRowCore_spec details none st0 r1 hskip1] at h1
  rw [processRowCore_spec details none st2 r2 hskip2] at h2
  injection h1 with hA hB
  injection hB with hB
  injection h2 with hC hD
  injection hD with hD
  have hpr1 : processRow details none st0 r1 = st1 := by
    unfold processRow
    rw [processRowCore_spec details none st0 r1 hskip1]
    exact hA
  have hpr2 : processRow details none st2 r2 = st3 := by
    unfold processRow
    rw [processRowCore_spec details none st2 r2 hskip2]
    exact hC
  have hcl1 := processRow_cluster_self details none st0 r1 hskip1
  rw [hpr1] at hcl1
  have hcl2 := processRow_cluster_self details none st2 r2 hskip2
  rw [hpr2] at hcl2
  -- r1's protocol and port entries
  obtain ⟨nproto1, hq1, hqid1⟩ := clusterStep_proto_after
    (clusterOf st0 (computeRowLabels details none r1).gatewayKey
      (computeRowLabels details none r1).sourceKey) st0.nextId
    (computeRowLabels details none r1)
  obtain ⟨nport1, hp1, hpid1⟩ := clusterStep_port_after
    (clusterOf st0 (computeRowLabels details none r1).gatewayKey
      (computeRowLabels details none r1).sourceKey) st0.nextId
    (computeRowLabels details none r1)
  rw [hB] at hqid1 hpid1
  have hq1' : alookup (clusterOf st1 (computeRowLabels details none r1).gatewayKey
      (computeRowLabels details none r1).sourceKey).nodes
      (computeRowLabels details none r1).protoKey = some nproto1 := by
    rw [hcl1]; exact hq1
  have hp1' : alookup (clusterOf st1 (computeRowLabels details none r1).gatewayKey
      (computeRowLabels details none r1).sourceKey).nodes
      (computeRowLabels details none r1).portKey = some nport1 := by
    rw [hcl1]; exact hp1
  -- persisted to st2, under r2's cluster keys
  have hq2 : alookup (clusterOf st2 (computeRowLabels details none r2).gatewayKey
      (computeRowLabels details none r2).sourceKey).nodes
      (computeRowLabels details none r2).protoKey = some nproto1 := by
    rw [← hg, ← hs, ← hproto, ← hmid]
    exact foldl_preserve_nodes details none mid st1 _ _ hq1'
  have hp2 : alookup (clusterOf st2 (computeRowLabels details none r2).gatewayKey
      (computeRowLabels details none r2).sourceKey).nodes
      (computeRowLabels details none r1).portKey = some nport1 := by
    rw [← hg, ← hs, ← hmid]
    exact foldl_preserve_nodes details none mid st1 _ _ hp1'
  -- r2 reuses the protocol node
  have hproto2 : ids2.proto = nproto1.id := by
    rw [← hD]
    exact clusterStep_proto_found hq2
  -- r2's own port entry
  obtain ⟨nport2, hp2e, hpid2⟩ := clusterStep_port_after
    (clusterOf st2 (computeRowLabels details none r2).gatewayKey
      (computeRowLabels details none r2).sourceKey) st2.nextId
    (computeRowLabels details none r2)
  rw [hD] at hpid2
  -- r1's port entry survives r2's step
  have hp3 : alookup (clusterStep (clusterOf st2
      (computeRowLabels details none r2).gatewayKey
      (computeRowLabels details none r2).sourceKey) st2.nextId
      (computeRowLabels details none r2)).1.nodes
      (computeRowLabels details none r1).portKey = some nport1 :=
    preserve_of_extend (clusterStep_nodes_extend ..) hp2
  -- invariants at st3
  have hinv1 : GInv st1 := by
    rw [← hpr1]; exact processRow_GInv details none st0 r1 hinv
  have hinv2 : GInv st2 := by
    rw [← hmid]; exact foldl_GInv details none mid st1 hinv1
  have hinv3 : GInv st3 := by
    rw [← hpr2]; exact processRow_GInv details none st2 r2 hinv2
  have hok3 := hinv3 (computeRowLabels details none r2).gatewayKey
    (computeRowLabels details none r2).sourceKey
  have hmem1 : ((computeRowLabels details none r1).portKey, nport1) ∈
      (clusterOf st3 (computeRowLabels details none r2).gatewayKey
        (computeRowLabels details none r2).sourceKey).nodes := by
    rw [hcl2]; exact alookup_mem hp3
  have hmem2 : ((computeRowLabels details none r2).portKey, nport2) ∈
      (clusterOf st3 (computeRowLabels details none r2).gatewayKey
        (computeRowLabels details none r2).sourceKey).nodes := by
    rw [hcl2]; exact alookup_mem hp2e
  have hidne : nport1.id ≠ nport2.id := by
    intro hh
    have heq := List.inj_on_of_nodup_map hok3.2.1 hmem1 hmem2 hh
    exact hport (congrArg Prod.fst heq)
  refine ⟨?_, ?_, ?_, ?_⟩
  · rw [← hpid1, ← hpid2]; exact hidne
  · rw [hproto2, hqid1]
  · -- r1's protocol→port edge persists to st3
    have he1 : ((clusterStep (clusterOf st0
        (computeRowLabels details none r1).gatewayKey
        (computeRowLabels details none r1).sourceKey) st0.nextId
        (computeRowLabels details none r1)).2.2.proto,
        (clusterStep (clusterOf st0
        (computeRowLabels details none r1).gatewayKey
        (computeRowLabels details none r1).sourceKey) st0.nextId
        (computeRowLabels details none r1)).2.2.port) ∈
        (clusterStep (clusterOf st0
        (computeRowLabels details none r1).gatewayKey
        (computeRowLabels details none r1).sourceKey) st0.nextId
        (computeRowLabels details none r1)).1.edges :=
      clusterStep_edge_proto_port ..
    rw [hB] at he1
    have he2 : (ids1.proto, ids1.port) ∈ (clusterOf st1
        (computeRowLabels details none r1).gatewayKey
        (computeRowLabels details none r1).sourceKey).edges := by
      rw [hcl1]; exact he1
    have he3 : (ids1.proto, ids1.port) ∈ (clusterOf st2
        (computeRowLabels details none r1).gatewayKey
        (computeRowLabels details none r1).sourceKey).edges := by
      rw [← hmid]
      exact foldl_preserve_edges details none mid st1 _ _ he2
    have he4 := processRow_preserve_edges details none st2 r2
      (computeRowLabels details none r1).gatewayKey
      (computeRowLabels details none r1).sourceKey he3
    rw [hpr2] at he4
    exact he4
  · -- r2's protocol→port edge is in its own cluster image
    have he1 : ((clusterStep (clusterOf st2
        (computeRowLabels details none r2).gatewayKey
        (computeRowLabels details none r2).sourceKey) st2.nextId
        (computeRowLabels details none r2)).2.2.proto,
        (clusterStep (clusterOf st2
        (computeRowLabels details none r2).gatewayKey
        (computeRowLabels details none r2).sourceKey) st2.nextId
        (computeRowLabels details none r2)).2.2.port) ∈
        (clusterStep (clusterOf st2
        (computeRowLabels details none r2).gatewayKey
        (computeRowLabels details none r2).sourceKey) st2.nextId
        (computeRowLabels details none r2)).1.edges :=
      clusterStep_edge_proto_port ..
    rw [hD] at he1
    rw [← hcl2] at he1
    rw [hg, hs]
    exact he1

/-- **C4 witness**: ports 443 and 8443 under `TCP`/`PASS` give port
nodes 4 and 6 sharing protocol node 3, with edges (3,4) and (3,6). -/
theorem c4_port_protocol_factorization_witness :
    rowPorts c4wrow1 ≠ rowPorts c4wrow2 ∧
    ((⟨0, 1, 2, 3, 4, 5, true⟩ : RowIds).port ≠ (⟨0, 1, 2, 3, 6, 7, true⟩ : RowIds).port ∧
     (⟨0, 1, 2, 3, 4, 5, true⟩ : RowIds).proto = (⟨0, 1, 2, 3, 6, 7, true⟩ : RowIds).proto ∧
     ((⟨0, 1, 2, 3, 4, 5, true⟩ : RowIds).proto, (⟨0, 1, 2, 3, 4, 5, true⟩ : RowIds).port) ∈
       (clusterOf (processRowCore [] none
         (processRowCore [] none emptyGState c4wrow1).1 c4wrow2).1
         (computeRowLabels [] none c4wrow1).gatewayKey
         (computeRowLabels [] none c4wrow1).sourceKey).edges ∧
     ((⟨0, 1, 2, 3, 6, 7, true⟩ : RowIds).proto, (⟨0, 1, 2, 3, 6, 7, true⟩ : RowIds).port) ∈
       (clusterOf (processRowCore [] none
         (processRowCore [] none emptyGState c4wrow1).1 c4wrow2).1
         (computeRowLabels [] none c4wrow1).gatewayKey
         (computeRowLabels [] none c4wrow1).sourceKey).edges) :=
  ⟨by decide,
   c4_port_protocol_factorization [] emptyGState c4wrow1 c4wrow2 []
     (processRowCore [] none emptyGState c4wrow1).1
     (processRowCore [] none emptyGState c4wrow1).1
     (processRowCore [] none (processRowCore [] none emptyGState c4wrow1).1 c4wrow2).1
     ⟨0, 1, 2, 3, 4, 5, true⟩ ⟨0, 1, 2, 3, 6, 7, true⟩
     GInv_empty (by decide) rfl (by decide) rfl rfl rfl rfl (by decide)⟩

/-- **C5 (claim).**  For both vendors, the fetch result over the global
plus per-interface responses contains pairwise-distinct stable rule
identifiers, and for every truthy identifier `v` it contains exactly the
first candidate entry carrying `v` (later duplicates are dropped, not
merged).  The identifier functions are `pfRuleId`
(tracker / id / sequence+interface) and `opnRuleId`
(uuid / sequence+interface). -/
theorem c5_fetch_deduplication :
    (∀ (g : List PfEntry) (per : List (String × List PfEntry)),
      ((fetch_pfsense_rules g per).map pfRuleId).Nodup) ∧
    (∀ (g : List PfEntry) (per : List (String × List PfEntry)) (v : IdVal),
      truthyId v = true →
      (fetch_pfsense_rules g per).filter (fun e => pfRuleId e == v) =
        ((g ++ per.flatMap (fun p => pfInterfaceFilter p.1 p.2)).filter
          (fun e => pfRuleId e == v)).take 1) ∧
    (∀ (g : List OpnEntry) (per : List (String × List OpnEntry)),
      ((fetch_opnsense_rules g per).map opnRuleId).Nodup) ∧
    (∀ (g : List OpnEntry) (per : List (String × List OpnEntry)) (v : IdVal),
      truthyId v = true →
      (fetch_opnsense_rules g per).filter (fun e => opnRuleId e == v) =
        ((g ++ per.flatMap Prod.snd).filter (fun e => opnRuleId e == v)).take 1) := by
  refine ⟨?_, ?_, ?_, ?_⟩
  · intro g per
    exact dedupByGo_ids_nodup pfRuleId [] _
  · intro g per v hv
    exact dedupByGo_filter_first pfRuleId _ hv (by simp)
  · intro g per
    exact dedupByGo_ids_nodup opnRuleId [] _
  · intro g per v hv
    exact dedupByGo_filter_first opnRuleId _ hv (by simp)

/-- **C5 witness**: two rules with tracker id `5` in the global fetch
yield exactly the first of the two. -/
theorem c5_fetch_deduplication_witness :
    truthyId (.jInt 5) = true ∧
    (fetch_pfsense_rules [c5e1, c5e2] []).filter (fun e => pfRuleId e == .jInt 5) =
      (([c5e1, c5e2] ++ ([] : List (String × List PfEntry)).flatMap
        (fun p => pfInterfaceFilter p.1 p.2)).filter
        (fun e => pfRuleId e == .jInt 5)).take 1 :=
  ⟨by decide, c5_fetch_deduplication.2.1 [c5e1, c5e2] [] (.jInt 5) (by decide)⟩

/-- **C10 (claim).**  Every entry surviving either vendor's fetch has a
truthy stable identifier — an entry whose identifier is falsy (no usable
`tracker`/`id`/`uuid` and an empty `sequence`+`interface` composite) is
silently dropped.  The second and fourth conjuncts characterize
falsiness exactly as the claim states it. -/
theorem c10_falsy_id_dropped :
    (∀ (g : List PfEntry) (per : List (String × List PfEntry)) (e : PfEntry),
      e ∈ fetch_pfsense_rules g per → truthyId (pfRuleId e) = true) ∧
    (∀ e : PfEntry, truthyId (pfRuleId e) = false ↔
      ((∀ v, e.tracker = some v → truthyId v = false) ∧
       (∀ v, e.id = some v → truthyId v = false) ∧
       e.sequence.getD "" = "" ∧ e.interface.getD "" = "")) ∧
    (∀ (g : List OpnEntry) (per : List (String × List OpnEntry)) (e : OpnEntry),
      e ∈ fetch_opnsense_rules g per → truthyId (opnRuleId e) = true) ∧
    (∀ e : OpnEntry, truthyId (opnRuleId e) = false ↔
      ((∀ v, e.uuid = some v → truthyId v = false) ∧
       e.sequence.getD "" = "" ∧ e.interface.getD "" = "")) := by
  refine ⟨?_, ?_, ?_, ?_⟩
  · intro g per e h
    exact (dedupByGo_mem pfRuleId [] _ h).1
  · intro e
    unfold pfRuleId jOr
    cases htr : e.tracker with
    | some v =>
        cases hv : truthyId v with
        | true => simp [hv, htr]
        | false =>
            cases hid : e.id with
            | some w =>
                cases hw : truthyId w with
                | true => simp [hv, hw, htr, hid]
                | false =>
                    simp only [hv, hw, Bool.false_eq_true, if_false]
                    rw [truthyId_jStr_eq_false, string_append_eq_empty]
                    constructor
                    · rintro ⟨ha, hb⟩
                      refine ⟨?_, ?_, ha, hb⟩
                      · intro u hu
                        cases hu
                        exact hv
                      · intro u hu
                        cases hu
                        exact hw
                    · rintro ⟨-, -, ha, hb⟩
                      exact ⟨ha, hb⟩
            | none =>
                simp only [hv, Bool.false_eq_true, if_false]
                rw [truthyId_jStr_eq_false, string_append_eq_empty]
                constructor
                · rintro ⟨ha, hb⟩
                  refine ⟨?_, ?_, ha, hb⟩
                  · intro u hu
                    cases hu
                    exact hv
                  · intro u hu
                    cases hu
                · rintro ⟨-, -, ha, hb⟩
                  exact ⟨ha, hb⟩
    | none =>
        cases hid : e.id with
        | some w =>
            cases hw : truthyId w with
            | true => simp [hw, htr, hid]
            | false =>
                simp only [hw, Bool.false_eq_true, if_false]
                rw [truthyId_jStr_eq_false, string_append_eq_empty]
                constructor
                · rintro ⟨ha, hb⟩
                  refine ⟨?_, ?_, ha, hb⟩
                  · intro u hu
                    cases hu
                  · intro u hu
                    cases hu
                    exact hw
                · rintro ⟨-, -, ha, hb⟩
                  exact ⟨ha, hb⟩
        | none =>
            rw [truthyId_jStr_eq_false, string_append_eq_empty]
            constructor
            · rintro ⟨ha, hb⟩
              refine ⟨?_, ?_, ha, hb⟩
              · intro u hu
                cases hu
              · intro u hu
                cases hu
            · rintro ⟨-, -, ha, hb⟩
              exact ⟨ha, hb⟩
  · intro g per e h
    exact (dedupByGo_mem opnRuleId [] _ h).1
  · intro e
    unfold opnRuleId jOr
    cases hu : e.uuid with
    | some v =>
        cases hv : truthyId v with
        | true => simp [hv, hu]
        | false =>
            simp only [hv, Bool.false_eq_true, if_false]
            rw [truthyId_jStr_eq_false, string_append_eq_empty]
            constructor
            · rintro ⟨ha, hb⟩
              refine ⟨?_, ha, hb⟩
              intro u hw
              cases hw
              exact hv
            · rintro ⟨-, ha, hb⟩
              exact ⟨ha, hb⟩
    | none =>
        rw [truthyId_jStr_eq_false, string_append_eq_empty]
        constructor
        · rintro ⟨ha, hb⟩
          refine ⟨?_, ha, hb⟩
          intro u hw
          cases hw
        · rintro ⟨-, ha, hb⟩
          exact ⟨ha, hb⟩

/-- **C10 witness**: with a falsy-id rule and a tracker-7 rule fetched
together, only the tracker-7 rule survives, and its id is truthy. -/
theorem c10_falsy_id_dropped_witness :
    c10good ∈ fetch_pfsense_rules [c10good, pfEntryNone] [] ∧
    truthyId (pfRuleId c10good) = true :=
  ⟨by decide,
   c10_falsy_id_dropped.1 [c10good, pfEntryNone] [] c10good (by decide)⟩

/-- **C6 (claim).**  `map_value(value, "destination")` lowercases the
value and consults the interface table, then the network/host alias
table, then the address alias table, returning the first hit; a value
present in both the interface and network tables resolves to the
interface-table label, and the raw value is returned when all three
tables miss. -/
theorem c6_destination_precedence :
    (∀ (m : AliasMaps) (s any_value L L2 : String),
      alookup m.interfaceMap (pyLower s) = some L →
      alookup m.netMap (pyLower s) = some L2 →
      map_value m (rStr s) (some .destination) any_value = L) ∧
    (∀ (m : AliasMaps) (s any_value L : String),
      alookup m.interfaceMap (pyLower s) = none →
      alookup m.netMap (pyLower s) = some L →
      map_value m (rStr s) (some .destination) any_value = L) ∧
    (∀ (m : AliasMaps) (s any_value L : String),
      alookup m.interfaceMap (pyLower s) = none →
      alookup m.netMap (pyLower s) = none →
      alookup m.addressMap (pyLower s) = some L →
      map_value m (rStr s) (some .destination) any_value = L) ∧
    (∀ (m : AliasMaps) (s any_value : String),
      alookup m.interfaceMap (pyLower s) = none →
      alookup m.netMap (pyLower s) = none →
      alookup m.addressMap (pyLower s) = none →
      map_value m (rStr s) (some .destination) any_value = s) := by
  refine ⟨?_, ?_, ?_, ?_⟩ <;> intros <;> simp_all [map_value, rvalToStr]

/-- **C6 witness**: `WEB` present in both tables resolves to the
interface-table label. -/
theorem c6_destination_precedence_witness :
    alookup c6maps.interfaceMap (pyLower "WEB") = some "IFACE-LABEL" ∧
    alookup c6maps.netMap (pyLower "WEB") = some "NET-LABEL" ∧
    map_value c6maps (rStr "WEB") (some .destination) "Any" = "IFACE-LABEL" :=
  ⟨by decide, by decide,
   c6_destination_precedence.1 c6maps "WEB" "Any" "IFACE-LABEL" "NET-LABEL"
     (by decide) (by decide)⟩

/-- **C1, counterexample.**  A vendor-A rule with `descr=""` yields
`COMMENT=""` (the empty string reaches the canonical row: `map_value`
only maps `None` to the sentinel), and a rule with `disabled` absent
yields `DISABLED="Any"`, not the claimed `"False"`. -/
theorem c1_counterexample :
    (normalizePfRow emptyMaps "GW" "Any" c1entry).COMMENT = "" ∧
    (normalizePfRow emptyMaps "GW" "Any" pfEntryNone).DISABLED = "Any" ∧
    (normalizePfRow emptyMaps "GW" "Any" pfEntryNone).DISABLED ≠ "False" := by
  refine ⟨rfl, rfl, by decide⟩

/-- **C1, amended.**  Absent (`None`) upstream values resolve to the
configured `Any` sentinel in every canonical field of both vendors —
including vendor A's boolean columns `DISABLED`/`FLOATING`, which
therefore default to the sentinel, not to `"False"`; vendor B's
`DISABLED` is the constant `"False"` and `FLOATING` is `"True"` exactly
when the interface is falsy.  (Empty-string upstream values pass through
unchanged; see the counterexample.) -/
theorem c1_normalization_sentinels (m : AliasMaps) (gateway_name any_value : String)
    (e : PfEntry) (o : OpnEntry) :
    (e.source = rNone → (normalizePfRow m gateway_name any_value e).SOURCE = any_value) ∧
    (e.interface = none →
      (normalizePfRow m gateway_name any_value e).GATEWAY = gateway_name ++ "/" ++ any_value) ∧
    (e.type = rNone → (normalizePfRow m gateway_name any_value e).ACTION = any_value) ∧
    (e.protocol = rNone → (normalizePfRow m gateway_name any_value e).PROTOCOL = any_value) ∧
    (e.destination_port = rNone → (normalizePfRow m gateway_name any_value e).PORT = any_value) ∧
    (e.destination = rNone → (normalizePfRow m gateway_name any_value e).DESTINATION = any_value) ∧
    (e.descr = rNone → (normalizePfRow m gateway_name any_value e).COMMENT = any_value) ∧
    (e.disabled = rNone → (normalizePfRow m gateway_name any_value e).DISABLED = any_value) ∧
    (e.floating = rNone → (normalizePfRow m gateway_name any_value e).FLOATING = any_value) ∧
    (o.source_network = rNone → o.source_address = rNone → o.source_net = rNone →
      o.source_any = rNone → (normalizeOpnRow m gateway_name any_value o).SOURCE = any_value) ∧
    (o.destination_network = rNone → o.destination_address = rNone →
      o.destination_any = rNone → o.destination_net = rNone →
      (normalizeOpnRow m gateway_name any_value o).DESTINATION = any_value) ∧
    (o.destPort = rNone → o.destination_port = rNone →
      (normalizeOpnRow m gateway_name any_value o).PORT = any_value) ∧
    (o.action = rNone → (normalizeOpnRow m gateway_name any_value o).ACTION = any_value) ∧
    (o.protocol = rNone → (normalizeOpnRow m gateway_name any_value o).PROTOCOL = any_value) ∧
    (o.description = rNone → (normalizeOpnRow m gateway_name any_value o).COMMENT = any_value) ∧
    ((normalizeOpnRow m gateway_name any_value o).DISABLED = "False") ∧
    (truthyR (strToR o.interface) = false →
      (normalizeOpnRow m gateway_name any_value o).FLOATING = "True" ∧
      (normalizeOpnRow m gateway_name any_value o).GATEWAY =
        gateway_name ++ "/Floating-rules") := by
  refine ⟨?_, ?_, ?_, ?_, ?_, ?_, ?_, ?_, ?_, ?_, ?_, ?_, ?_, ?_, ?_, ?_, ?_⟩ <;>
    intros <;> simp_all [normalizePfRow, normalizeOpnRow, map_value, pyOr, truthyR, strToR]

/-- **C1 witness**: an all-absent vendor-A rule and an all-absent
vendor-B rule produce sentinel-valued rows. -/
theorem c1_normalization_sentinels_witness :
    pfEntryNone.descr = rNone ∧
    (normalizePfRow emptyMaps "GW" "Any" pfEntryNone).COMMENT = "Any" ∧
    (normalizeOpnRow emptyMaps "GW" "Any" opnEntryNone).DISABLED = "False" :=
  ⟨rfl,
   (c1_normalization_sentinels emptyMaps "GW" "Any" pfEntryNone opnEntryNone).2.2.2.2.2.2.1 rfl,
   (c1_normalization_sentinels emptyMaps "GW" "Any" pfEntryNone opnEntryNone).2.2.2.2.2.2.2.2.2.2.2.2.2.2.2.1⟩

/-- **C8, counterexample.**  A vendor-A floating rule keeps
`GATEWAY="<name>/<resolved interface>"`: its `FLOATING` column is
`"True"` yet `GATEWAY` is `GW/wan`, not `GW/Floating-rules` — only
vendor B synthesizes the floating gateway suffix during normalization. -/
theorem c8_counterexample :
    (normalizePfRow emptyMaps "GW" "Any" c8entry).FLOATING = "True" ∧
    (normalizePfRow emptyMaps "GW" "Any" c8entry).GATEWAY = "GW/wan" ∧
    (normalizePfRow emptyMaps "GW" "Any" c8entry).GATEWAY ≠ "GW/Floating-rules" := by
  refine ⟨rfl, by decide, by decide⟩

/-- **C8, amended.**  Every vendor-A row — floating or not — has
`GATEWAY = "<gatewayName>/<resolved interface>"` (`Any` when the
interface is absent).  Vendor-B rows have that form when the interface
is truthy, and `"<gatewayName>/Floating-rules"` (with `FLOATING="True"`)
when it is not. -/
theorem c8_gateway_field (m : AliasMaps) (gateway_name any_value : String) :
    (∀ e : PfEntry, (normalizePfRow m gateway_name any_value e).GATEWAY =
      gateway_name ++ "/" ++
        map_value m (strToR e.interface) (some .interface) any_value) ∧
    (∀ e : PfEntry, e.interface = none →
      (normalizePfRow m gateway_name any_value e).GATEWAY =
        gateway_name ++ "/" ++ any_value) ∧
    (∀ o : OpnEntry, truthyR (strToR o.interface) = true →
      (normalizeOpnRow m gateway_name any_value o).GATEWAY =
        gateway_name ++ "/" ++
          map_value m (strToR o.interface) (some .interface) any_value) ∧
    (∀ o : OpnEntry, truthyR (strToR o.interface) = false →
      (normalizeOpnRow m gateway_name any_value o).GATEWAY =
        gateway_name ++ "/Floating-rules" ∧
      (normalizeOpnRow m gateway_name any_value o).FLOATING = "True") := by
  refine ⟨?_, ?_, ?_, ?_⟩ <;> intros <;>
    simp_all [normalizePfRow, normalizeOpnRow, map_value, strToR]

/-- **C8 witness**: with interface `wan` present, vendor B resolves the
gateway suffix; the pf side is exercised on the floating entry. -/
theorem c8_gateway_field_witness :
    truthyR (strToR c8opn.interface) = true ∧
    (normalizeOpnRow emptyMaps "GW" "Any" c8opn).GATEWAY = "GW" ++ "/" ++
      map_value emptyMaps (strToR c8opn.interface) (some .interface) "Any" :=
  ⟨by decide, (c8_gateway_field emptyMaps "GW" "Any").2.2.1 c8opn (by decide)⟩

/-- **C9 (claim).**  Regeneration is triggered exactly when the stored
fingerprint differs from the hash of the current canonical rule file;
the fingerprint file is written (with the new hash) only when
regeneration triggers; a missing fingerprint file always triggers
(md5 hexdigests are non-empty); and an unchanged rule set across two
consecutive runs performs no regeneration on the second run (hexdigests
round-trip through the single-line file unchanged). -/
theorem c9_fingerprint_gate (hash : String → String) (csv : String)
    (st : Option String) :
    ((runChangeDetection hash csv st).1 = true ↔
      readStoredFingerprint st ≠ hash csv) ∧
    ((runChangeDetection hash csv st).1 = false →
      (runChangeDetection hash csv st).2 = st) ∧
    ((runChangeDetection hash csv st).1 = true →
      (runChangeDetection hash csv st).2 = some (hash csv ++ "\n")) ∧
    (st = none → hash csv ≠ "" → (runChangeDetection hash csv st).1 = true) ∧
    (firstLineStrip (hash csv ++ "\n") = hash csv →
      (runChangeDetection hash csv (runChangeDetection hash csv st).2).1 = false) := by
  by_cases h : readStoredFingerprint st ≠ hash csv
  · refine ⟨?_, ?_, ?_, ?_, ?_⟩
    · simp [runChangeDetection, h]
    · simp [runChangeDetection, h]
    · simp [runChangeDetection, h]
    · intro _ _
      simp [runChangeDetection, h]
    · intro hround
      have h2 : (runChangeDetection hash csv st).2 = some (hash csv ++ "\n") := by
        simp [runChangeDetection, h]
      rw [h2]
      simp [runChangeDetection, readStoredFingerprint, hround]
  · refine ⟨?_, ?_, ?_, ?_, ?_⟩
    · simp [runChangeDetection, h]
    · simp [runChangeDetection, h]
    · simp [runChangeDetection, h]
    · intro hnone hne
      rw [hnone] at h
      simp [readStoredFingerprint] at h
      exact absurd h.symm hne
    · intro _
      have h2 : (runChangeDetection hash csv st).2 = st := by
        simp [runChangeDetection, h]
      rw [h2]
      simp [runChangeDetection, h]

/-- **C7, counterexample.**  A pfSense alias of kind `urltable` does NOT
disappear from the lookup tables: the `else` branch of
`_fetch_pfsense_aliases` (api_client.py line 190) writes it into the
net map, where destination resolution will find it. -/
theorem c7_counterexample :
    c7alias.type ∉ ["host", "network", "port"] ∧
    alookup (fetch_pfsense_aliases [c7alias] emptyMaps).netMap "x" = some "d" := by
  refine ⟨by decide, rfl⟩

/-- **C7, amended.**  Vendor B retains only aliases that are explicitly
enabled (`enabled == "1"`), non-empty-named, and of selected kind
`host`/`network`/`port`: every entry of its net, address, port and
detail tables originates from such an alias.  Vendor A has no enabled
flag; it places `host`/`network` aliases in the net and address maps and
`port` aliases in the port map, but an alias of ANY OTHER kind is not
dropped — it lands in the net map (and its details are recorded for
every alias). -/
theorem c7_alias_retention :
    (∀ (aliases : List OpnAlias) (k v : String),
      alookup (fetch_opnsense_aliases aliases emptyMaps).netMap k = some v →
      ∃ a ∈ aliases, opnKept a k ∧
        (opnSelectedType a = some "host" ∨ opnSelectedType a = some "network")) ∧
    (∀ (aliases : List OpnAlias) (k v : String),
      alookup (fetch_opnsense_aliases aliases emptyMaps).addressMap k = some v →
      ∃ a ∈ aliases, opnKept a k ∧
        (opnSelectedType a = some "host" ∨ opnSelectedType a = some "network")) ∧
    (∀ (aliases : List OpnAlias) (k v : String),
      alookup (fetch_opnsense_aliases aliases emptyMaps).portMap k = some v →
      ∃ a ∈ aliases, opnKept a k ∧ opnSelectedType a = some "port") ∧
    (∀ (aliases : List OpnAlias) (k : String) (v : AliasInfo),
      alookup (fetch_opnsense_aliases aliases emptyMaps).aliasDetails k = some v →
      ∃ a ∈ aliases, opnKept a k ∧ ∃ t, opnSelectedType a = some t ∧
        (t = "host" ∨ t = "network" ∨ t = "port")) ∧
    (∀ (aliases : List PfAlias) (k v : String),
      alookup (fetch_pfsense_aliases aliases emptyMaps).netMap k = some v →
      ∃ a ∈ aliases, a.type ≠ "port" ∧ k = pyLower a.name) ∧
    (∀ (aliases : List PfAlias) (k v : String),
      alookup (fetch_pfsense_aliases aliases emptyMaps).addressMap k = some v →
      ∃ a ∈ aliases, (a.type = "host" ∨ a.type = "network") ∧ k = pyLower a.name) ∧
    (∀ (aliases : List PfAlias) (k v : String),
      alookup (fetch_pfsense_aliases aliases emptyMaps).portMap k = some v →
      ∃ a ∈ aliases, a.type = "port" ∧ k = pyLower a.name) := by
  refine ⟨?_, ?_, ?_, ?_, ?_, ?_, ?_⟩
  · intro aliases k v h
    rcases foldl_alookup_origin (fun mm => mm.netMap) fetchOpnAliasStep _
      (fun m a k v hh => fetchOpnAliasStep_netMap hh) aliases emptyMaps k v h with
      hemp | hfound
    · simp [emptyMaps, alookup] at hemp
    · exact hfound
  · intro aliases k v h
    rcases foldl_alookup_origin (fun mm => mm.addressMap) fetchOpnAliasStep _
      (fun m a k v hh => fetchOpnAliasStep_addressMap hh) aliases emptyMaps k v h with
      hemp | hfound
    · simp [emptyMaps, alookup] at hemp
    · exact hfound
  · intro aliases k v h
    rcases foldl_alookup_origin (fun mm => mm.portMap) fetchOpnAliasStep _
      (fun m a k v hh => fetchOpnAliasStep_portMap hh) aliases emptyMaps k v h with
      hemp | hfound
    · simp [emptyMaps, alookup] at hemp
    · exact hfound
  · intro aliases k v h
    rcases foldl_alookup_origin (fun mm => mm.aliasDetails) fetchOpnAliasStep _
      (fun m a k v hh => fetchOpnAliasStep_details hh) aliases emptyMaps k v h with
      hemp | hfound
    · simp [emptyMaps, alookup] at hemp
    · exact hfound
  · intro aliases k v h
    rcases foldl_alookup_origin (fun mm => mm.netMap) fetchPfAliasStep _
      (fun m a k v hh => fetchPfAliasStep_netMap hh) aliases emptyMaps k v h with
      hemp | hfound
    · simp [emptyMaps, alookup] at hemp
    · exact hfound
  · intro aliases k v h
    rcases foldl_alookup_origin (fun mm => mm.addressMap) fetchPfAliasStep _
      (fun m a k v hh => fetchPfAliasStep_addressMap hh) aliases emptyMaps k v h with
      hemp | hfound
    · simp [emptyMaps, alookup] at hemp
    · exact hfound
  · intro aliases k v h
    rcases foldl_alookup_origin (fun mm => mm.portMap) fetchPfAliasStep _
      (fun m a k v hh => fetchPfAliasStep_portMap hh) aliases emptyMaps k v h with
      hemp | hfound
    · simp [emptyMaps, alookup] at hemp
    · exact hfound

/-- **C7 witness**: an enabled OPNSense host alias lands in the net map
and its origin is certified by the theorem. -/
theorem c7_alias_retention_witness :
    alookup (fetch_opnsense_aliases [c7opnalias] emptyMaps).netMap "web" =
      some "web servers" ∧
    (∃ a ∈ [c7opnalias], opnKept a "web" ∧
      (opnSelectedType a = some "host" ∨ opnSelectedType a = some "network")) :=
  ⟨by decide,
   c7_alias_retention.1 [c7opnalias] "web" "web servers" (by decide)⟩

/-- **C9 witness**: a first run with no fingerprint file regenerates,
and an immediate second run on the same content does not. -/
theorem c9_fingerprint_gate_witness :
    (fun _ : String => "d41d8cd98f00b204e9800998ecf8427e") "csv" ≠ "" ∧
    (runChangeDetection (fun _ => "d41d8cd98f00b204e9800998ecf8427e") "csv" none).1 = true ∧
    (runChangeDetection (fun _ => "d41d8cd98f00b204e9800998ecf8427e") "csv"
      (runChangeDetection (fun _ => "d41d8cd98f00b204e9800998ecf8427e") "csv" none).2).1 = false :=
  ⟨by decide,
   (c9_fingerprint_gate (fun _ => "d41d8cd98f00b204e9800998ecf8427e") "csv" none).2.2.2.1
     rfl (by decide),
   (c9_fingerprint_gate (fun _ => "d41d8cd98f00b204e9800998ecf8427e") "csv" none).2.2.2.2
     (by decide)⟩

end PyFRC2G
